import Mathlib

/-!
Verification development for the places-history geographic event resolution
pipeline (the Next.js route handler `GET /api/events` and its helpers:
`calculateDistance`, the bounding-box computation, `queryWikidata`,
`queryWikidataFallback`, `cachedQueryWikidata`, `convertToGeoJSON`,
`convertToFullGeoJSON`).

The route handler and its helpers are embedded shallowly:

* Query parameters and upstream SPARQL binding values are strings; the
  JavaScript primitives acting on them (`x || 'default'`, `parseFloat`,
  `parseInt`, the `Point\(([^ ]+) ([^)]+)\)` regular-expression match) are
  modelled as executable Lean functions on `String`/`List Char`.
  Numeric values are modelled as exact rationals (`parseFloat` is modelled
  as exact decimal parsing; the finite-precision Float64 representation is
  idealised away).
* The pipeline (filtering, truncation, tier fallback, caching, response
  shaping) is generic over the value type `α` used for distances and over
  the distance function `dist`, so that structural theorems hold for every
  model of the source's haversine `calculateDistance`, and the idealised
  real-valued haversine (defined below over `ℝ` with exact trigonometric
  functions) can be plugged in for concrete runs.
* Network effects are modelled by passing the upstream HTTP responses
  (status flag plus optional `results.bindings` table) as explicit inputs,
  and the `unstable_cache` store as an explicit key-indexed map threaded
  through the handler.  The handler additionally returns a trace recording
  how many connectivity tests, primary-tier upstream queries and
  fallback-tier queries were issued, and with which search arguments.
-/

namespace PlacesHistory

/-! ## JavaScript primitive models -/

/-- Model of the JavaScript expression `x || d` for an optional string `x`:
`null`/`undefined` and the empty string are falsy and yield the default. -/
def jsOrS (x : Option String) (d : String) : String :=
  match x with
  | none => d
  | some s => if s = "" then d else s

/-- Consume a maximal run of ASCII digits, returning the accumulated value,
the number of digits consumed, and the remaining characters. -/
def takeDigits : List Char → ℕ → ℕ → ℕ × ℕ × List Char
  | [], acc, n => (acc, n, [])
  | c :: cs, acc, n =>
    if c.isDigit then takeDigits cs (10 * acc + (c.toNat - 48)) (n + 1)
    else (acc, n, c :: cs)

/-- Skip leading whitespace, as `parseFloat`/`parseInt` do. -/
def skipWS : List Char → List Char
  | [] => []
  | c :: cs => if c = ' ' ∨ c = '\t' ∨ c = '\n' ∨ c = '\r' then skipWS cs else c :: cs

/-- Consume an optional leading sign; returns whether the value is negated. -/
def parseSign : List Char → Bool × List Char
  | '-' :: cs => (true, cs)
  | '+' :: cs => (false, cs)
  | cs => (false, cs)

/-- Apply an optional exponent suffix (`e`/`E`, optional sign, digits) to a
mantissa, as `parseFloat` does; an incomplete exponent is ignored. -/
def applyExp (mant : ℚ) : List Char → ℚ
  | c :: rest =>
    if c = 'e' ∨ c = 'E' then
      let s := parseSign rest
      let d := takeDigits s.2 0 0
      if d.2.1 = 0 then mant
      else if s.1 then mant / 10 ^ d.1 else mant * 10 ^ d.1
    else mant
  | [] => mant

/-- Model of JavaScript `parseFloat`: longest numeric prefix after optional
whitespace and sign (`digits`, `digits.digits`, `.digits`, optional
exponent); `none` models `NaN` (no digit consumed).  The special literal
`Infinity` and Float64 rounding are not modelled: every input appearing in
this development is a plain finite decimal literal. -/
def parseFloatQ (s : String) : Option ℚ :=
  let cs := skipWS s.toList
  let sg := parseSign cs
  let ip := takeDigits sg.2 0 0
  let fr : ℕ × ℕ × List Char :=
    match ip.2.2 with
    | '.' :: rest => takeDigits rest 0 0
    | other => (0, 0, other)
  if ip.2.1 + fr.2.1 = 0 then none
  else
    let mant : ℚ := (ip.1 : ℚ) + (fr.1 : ℚ) / 10 ^ fr.2.1
    let v := applyExp mant fr.2.2
    some (if sg.1 then -v else v)

/-- Model of JavaScript `parseInt(s)` on base-10 input: optional whitespace,
optional sign, maximal run of digits; `none` models `NaN`.  (The `0x` hex
prefix is not modelled; the source only parses year parameters here.) -/
def parseIntJS (s : String) : Option ℤ :=
  let cs := skipWS s.toList
  let sg := parseSign cs
  let d := takeDigits sg.2 0 0
  if d.2.1 = 0 then none
  else some (if sg.1 then -(d.1 : ℤ) else (d.1 : ℤ))

/-- Consume a maximal run of characters different from `stop`, returning the
run and the rest.  This is exactly the behaviour of the greedy character
classes `[^ ]+` / `[^)]+` in the source's geometry regular expression (the
excluded delimiter terminates the run). -/
def takeUntil (stop : Char) : List Char → List Char × List Char
  | [] => ([], [])
  | c :: cs =>
    if c = stop then ([], c :: cs)
    else
      let r := takeUntil stop cs
      (c :: r.1, r.2)

/-- Try to match the regular expression `Point\(([^ ]+) ([^)]+)\)` at the
start of the character list, returning the two capture groups.  The greedy
character classes need no backtracking because each excludes exactly the
delimiter that must follow it. -/
def matchPointAt (cs : List Char) : Option (String × String) :=
  match cs with
  | c1 :: c2 :: c3 :: c4 :: c5 :: c6 :: rest =>
    if c1 = 'P' ∧ c2 = 'o' ∧ c3 = 'i' ∧ c4 = 'n' ∧ c5 = 't' ∧ c6 = '(' then
      let a := takeUntil ' ' rest
      if a.1 = [] then none
      else
        match a.2 with
        | c7 :: r2 =>
          if c7 = ' ' then
            let b := takeUntil ')' r2
            if b.1 = [] then none
            else
              match b.2 with
              | c8 :: _ => if c8 = ')' then some (String.mk a.1, String.mk b.1) else none
              | [] => none
          else none
        | [] => none
    else none
  | _ => none

/-- Leftmost match of `Point\(([^ ]+) ([^)]+)\)` in a character list,
modelling `locationStr.match(/Point\(([^ ]+) ([^)]+)\)/)`: the engine tries
each start position from the left. -/
def matchPoint : List Char → Option (String × String)
  | [] => none
  | c :: cs =>
    match matchPointAt (c :: cs) with
    | some m => some m
    | none => matchPoint cs

/-- `listStarts n h` holds when `n` is a prefix of `h` (used for the
substring test below). -/
def listStarts : List Char → List Char → Bool
  | [], _ => true
  | _ :: _, [] => false
  | a :: as, b :: bs => a = b && listStarts as bs

/-- Model of JavaScript `haystack.includes(needle)`. -/
def hasSub (n : List Char) : List Char → Bool
  | [] => listStarts n []
  | c :: cs => listStarts n (c :: cs) || hasSub n cs

/-! ## Data model

`Binding` mirrors one row of the upstream SPARQL `results.bindings` table
(each field is `binding.<name>?.value`); `WItem α` mirrors the TypeScript
`WikidataItem` shape with the attached distance generalised from a printed
float to a value of `α`.  The response shapes mirror `EventFeature` /
`CoordinatesFeature`: a feature's `props` is `none` in coordinates-only
mode. -/

structure Binding where
  item : Option String := none
  itemLabel : Option String := none
  date : Option String := none
  location : Option String := none
  lat : Option String := none
  lng : Option String := none
  wikipediaUrl : Option String := none
  itemDescription : Option String := none
deriving DecidableEq, Repr

structure WItem (α : Type) where
  item : String
  itemLabel : String
  itemDescription : Option String
  date : String
  lat : String
  lng : String
  distance : Option α
  wikipediaUrl : Option String
  imageUrl : Option String
deriving DecidableEq, Repr

structure FullProps (α : Type) where
  id : String
  label : String
  description : Option String
  date : String
  distance : α
  wikipediaUrl : Option String
  imageUrl : Option String
deriving DecidableEq, Repr

/-- A GeoJSON point feature; geometry coordinates are `[lng, lat]`. -/
structure Feature (α : Type) where
  lng : ℚ
  lat : ℚ
  props : Option (FullProps α)
deriving DecidableEq, Repr

structure FeatureCollection (α : Type) where
  features : List (Feature α)
deriving DecidableEq, Repr

inductive ApiResponse (α : Type) where
  | ok (body : FeatureCollection α)
  | err (status : ℕ) (msg : String)
deriving DecidableEq, Repr

/-- One upstream HTTP response: `ok` is `response.ok`; `bindings = none`
models a JSON body without the `results.bindings` table. -/
structure UpResp where
  ok : Bool := true
  status : ℕ := 200
  bindings : Option (List Binding) := none
deriving DecidableEq, Repr

/-- The upstream responses the two tiers would receive for this request. -/
structure Upstream where
  primary : UpResp
  fallback : UpResp
deriving DecidableEq, Repr

/-- Inbound query parameters (`searchParams.get` results). -/
structure ReqParams where
  lat : Option String := none
  lng : Option String := none
  r : Option String := none
  coordinates : Option String := none
  startYear : Option String := none
  endYear : Option String := none
deriving DecidableEq, Repr

/-- Execution trace of one `GET` call: number of connectivity tests,
primary-tier upstream queries (cache misses), fallback-tier queries, and
the search arguments `(lat, lng, radius, startYear, endYear)` the handler
proceeded with (if validation passed). -/
structure Trace where
  connCalls : ℕ
  primaryCalls : ℕ
  fallbackCalls : ℕ
  searchArgs : Option (ℚ × ℚ × ℚ × ℤ × ℤ)
deriving DecidableEq, Repr

/-- Key of the `unstable_cache` entry:
`['wikidata-events', lat, lng, r, startYear, endYear]`. -/
abbrev CacheKey := ℚ × ℚ × ℚ × ℤ × ℤ

/-- The `unstable_cache` store, restricted to this route's entries. -/
def Cache (α : Type) := CacheKey → Option (List (WItem α))

def cacheInsert {α : Type} (c : Cache α) (k : CacheKey) (v : List (WItem α)) :
    Cache α :=
  fun k' => if k' = k then some v else c k'

def emptyCache (α : Type) : Cache α := fun _ => none

/-! ## Upstream row parsing (source lines 158-217 and 592-651) -/

/-- Date normalisation (source lines 176-198 / 610-632): an absent date is
`Unknown date`; a string containing `T` goes through
`new Date(s).toISOString().split('T')[0]`, modelled here as taking the part
before `T` (these agree on the well-formed ISO timestamps the upstream
service emits; JS `Date` round-tripping of malformed strings is not
modelled); otherwise the string passes through unchanged. -/
def formatDate : Option String → String
  | none => "Unknown date"
  | some s =>
    if (s.toList.contains 'T') then String.mk (takeUntil 'T' s.toList).1
    else s

/-- Coordinate extraction with recovery (source lines 160-172 / 594-606):
take `binding.lat?.value || '0'` and `binding.lng?.value || '0'`; if either
is the literal string `0` and a location string is present, pattern-match
`Point\(([^ ]+) ([^)]+)\)` and on success overwrite `lng` with the first
capture and `lat` with the second.  Returns `(lat, lng)` as strings. -/
def extractCoords (b : Binding) : String × String :=
  let itemLat := jsOrS b.lat "0"
  let itemLng := jsOrS b.lng "0"
  if (itemLat = "0" ∨ itemLng = "0") ∧ jsOrS b.location "" ≠ "" then
    match matchPoint (jsOrS b.location "").toList with
    | some m => (m.2, m.1)
    | none => (itemLat, itemLng)
  else (itemLat, itemLng)

/-- English-Wikipedia URL filter (source lines 200-204 / 634-638):
keep the URL only if it is truthy and contains `en.wikipedia.org`. -/
def filterWikiUrl (u : Option String) : Option String :=
  match u with
  | some s =>
    if s ≠ "" ∧ hasSub "en.wikipedia.org".toList s.toList then some s else none
  | none => none

/-- Build a `WikidataItem` from one main-query binding
(source lines 158-217). -/
def toItemMain {α : Type} (b : Binding) : WItem α :=
  let c := extractCoords b
  { item := jsOrS b.item ""
    itemLabel := jsOrS b.itemLabel "Unknown"
    itemDescription := none
    date := formatDate b.date
    lat := c.1
    lng := c.2
    distance := none
    wikipediaUrl := filterWikiUrl b.wikipediaUrl
    imageUrl := none }

/-- Build a `WikidataItem` from one fallback-query binding (source lines
592-651); the row-parsing logic is duplicated verbatim in the source and
coincides with the main tier's. -/
def toItemFallback {α : Type} (b : Binding) : WItem α :=
  let c := extractCoords b
  { item := jsOrS b.item ""
    itemLabel := jsOrS b.itemLabel "Unknown"
    itemDescription := none
    date := formatDate b.date
    lat := c.1
    lng := c.2
    distance := none
    wikipediaUrl := filterWikiUrl b.wikipediaUrl
    imageUrl := none }

/-! ## Distance filtering and tiers (source lines 219-246, 519-686) -/

/-- One step of the strict distance filter (source lines 221-241): parse the
item's coordinate strings (`parseFloat`; `NaN` drops the row), compute the
distance from the request centre, keep the row iff `distance <= radius`
(inclusive), attaching the computed distance. -/
def tierStep {α : Type} [LinearOrder α] (dist : ℚ → ℚ → ℚ → ℚ → α)
    (clat clng : ℚ) (radius : α) (it : WItem α) : Option (WItem α) :=
  match parseFloatQ it.lat, parseFloatQ it.lng with
  | some itemLat, some itemLng =>
    let d := dist clat clng itemLat itemLng
    if d ≤ radius then some { it with distance := some d } else none
  | _, _ => none

/-- Distance filter plus truncation (source lines 220-243 / 654-677):
`.map(...).filter(nonNull).slice(0, 50)`. -/
def filterByRadius {α : Type} [LinearOrder α] (dist : ℚ → ℚ → ℚ → ℚ → α)
    (clat clng : ℚ) (radius : α) (items : List (WItem α)) : List (WItem α) :=
  (items.filterMap (tierStep dist clat clng radius)).take 50

/-- Primary-tier query `queryWikidata` (source lines 53-264), as a function
of the upstream response: a non-OK response throws; a body without
`results.bindings` yields `[]`; otherwise rows are parsed and
distance-filtered.  The thrown message is modelled by the final generic
rethrow of the source's catch block. -/
def queryWikidata {α : Type} [LinearOrder α] (dist : ℚ → ℚ → ℚ → ℚ → α)
    (clat clng : ℚ) (radius : α) (resp : UpResp) :
    Except String (List (WItem α)) :=
  if ¬ resp.ok then .error "Failed to query historical events from Wikidata"
  else
    match resp.bindings with
    | none => .ok []
    | some bs => .ok (filterByRadius dist clat clng radius (bs.map toItemMain))

/-- Fallback-tier query `queryWikidataFallback` (source lines 519-686): a
non-OK response or a body without `results.bindings` yields `[]` (errors are
absorbed, never thrown); otherwise rows are parsed and distance-filtered. -/
def queryWikidataFallback {α : Type} [LinearOrder α]
    (dist : ℚ → ℚ → ℚ → ℚ → α) (clat clng : ℚ) (radius : α) (resp : UpResp) :
    List (WItem α) :=
  if ¬ resp.ok then []
  else
    match resp.bindings with
    | none => []
    | some bs => filterByRadius dist clat clng radius (bs.map toItemFallback)

/-- `cachedQueryWikidata` (source lines 691-701): `unstable_cache` keyed by
the exact request parameters with a 3600 s expiry.  Within the TTL a hit
returns the stored value without querying upstream; a miss runs
`queryWikidata` and stores its result.  Returns the result, the updated
store, and the number of upstream primary queries issued (0 or 1). -/
def cachedQueryWikidata {α : Type} [LinearOrder α]
    (dist : ℚ → ℚ → ℚ → ℚ → α) (q2a : ℚ → α) (clat clng radius : ℚ)
    (startYear endYear : ℤ) (resp : UpResp) (cache : Cache α) :
    Except String (List (WItem α)) × Cache α × ℕ :=
  let key : CacheKey := (clat, clng, radius, startYear, endYear)
  match cache key with
  | some v => (.ok v, cache, 0)
  | none =>
    match queryWikidata dist clat clng (q2a radius) resp with
    | .ok v => (.ok v, cacheInsert cache key v, 1)
    | .error e => (.error e, cache, 1)

/-! ## Response shaping (source lines 436-514) -/

/-- `convertToGeoJSON` (source lines 436-464), coordinates-only mode: parse
each item's coordinate strings, silently dropping unparseable rows, and emit
bare point geometry `[lng, lat]`. -/
def convertToGeoJSON {α : Type} (items : List (WItem α)) (_clat _clng : ℚ) :
    FeatureCollection α :=
  ⟨items.filterMap fun it =>
    match parseFloatQ it.lat, parseFloatQ it.lng with
    | some la, some ln => some ⟨ln, la, none⟩
    | _, _ => none⟩

/-- `convertToFullGeoJSON` (source lines 470-514), full mode: parse each
item's coordinate strings (unparseable rows dropped), recompute the
distance from the centre, drop rows with `distance > radius`, and emit full
properties with the recomputed distance. -/
def convertToFullGeoJSON {α : Type} [LinearOrder α]
    (dist : ℚ → ℚ → ℚ → ℚ → α) (items : List (WItem α)) (clat clng : ℚ)
    (radius : α) : FeatureCollection α :=
  ⟨items.filterMap fun it =>
    match parseFloatQ it.lat, parseFloatQ it.lng with
    | some la, some ln =>
      let d := dist clat clng la ln
      if radius < d then none
      else
        some ⟨ln, la,
          some ⟨it.item, it.itemLabel, it.itemDescription, it.date, d,
            it.wikipediaUrl, none⟩⟩
    | _, _ => none⟩

/-! ## The route handler (source lines 703-809) -/

/-- Default radius `DEFAULT_RADIUS_KM = 5 * 1.60934` from `lib/config.ts`;
its JS string rendering is `8.0467`. -/
def DEFAULT_RADIUS_KM : ℚ := 8.0467

def noTrace : Trace := ⟨0, 0, 0, none⟩

/-- The `GET /api/events` handler (source lines 703-809): parameter parsing
with defaults, the six validation checks in source order, the connectivity
test, the cached primary query, the zero-result fallback, and response
shaping.  `currentYear` models `new Date().getFullYear()`; `up` carries the
upstream responses; `cache` is the `unstable_cache` store.  Returns the
HTTP response, the updated store, and the call trace. -/
def GET {α : Type} [LinearOrder α] (dist : ℚ → ℚ → ℚ → ℚ → α) (q2a : ℚ → α)
    (currentYear : ℤ) (req : ReqParams) (up : Upstream) (cache : Cache α) :
    ApiResponse α × Cache α × Trace :=
  match parseFloatQ (jsOrS req.lat "0"), parseFloatQ (jsOrS req.lng "0"),
      parseFloatQ (jsOrS req.r "8.0467") with
  | some lat, some lng, some radius =>
    match parseIntJS (jsOrS req.startYear "1500"),
        parseIntJS (jsOrS req.endYear (toString currentYear)) with
    | some startYear, some endYear =>
      if startYear > endYear then
        (.err 400 "startYear must be less than or equal to endYear.", cache,
          noTrace)
      else if endYear > currentYear then
        (.err 400 "endYear cannot be in the future.", cache, noTrace)
      else if radius < 1 then
        (.err 400 "Radius too small. Minimum allowed is 1km.", cache, noTrace)
      else if radius > 500 then
        (.err 400 "Radius too large. Maximum allowed is 500km (311 miles).",
          cache, noTrace)
      else
        let coordinatesOnly := req.coordinates = some "true"
        let key : ℚ × ℚ × ℚ × ℤ × ℤ := (lat, lng, radius, startYear, endYear)
        match cachedQueryWikidata dist q2a lat lng radius startYear endYear
            up.primary cache with
        | (.error _, cache', n) =>
          (.err 500 "Failed to fetch historical events", cache',
            ⟨1, n, 0, some key⟩)
        | (.ok items0, cache', n) =>
          let fb : List (WItem α) × ℕ :=
            if items0.length = 0 then
              (queryWikidataFallback dist lat lng (q2a radius) up.fallback, 1)
            else (items0, 0)
          let body :=
            if coordinatesOnly then convertToGeoJSON fb.1 lat lng
            else convertToFullGeoJSON dist fb.1 lat lng (q2a radius)
          (.ok body, cache', ⟨1, n, fb.2, some key⟩)
    | _, _ =>
      (.err 400 "Invalid year parameters. startYear and endYear must be valid numbers.",
        cache, noTrace)
  | _, _, _ =>
    (.err 400 "Invalid parameters. lat, lng, and r must be valid numbers.",
      cache, noTrace)

/-! ## Idealised real-valued geometry

The source computes with Float64 `Math.sin`/`Math.cos`/`Math.atan2`; these
are idealised as the exact real functions. -/

open Real

/-- Model of JavaScript `Math.atan2(y, x)` on real numbers (signed zeros
collapse to `0`; only the `x > 0` and `x = 0` branches are exercised
below, since `calculateDistance` always passes nonnegative arguments). -/
noncomputable def atan2 (y x : ℝ) : ℝ :=
  if 0 < x then arctan (y / x)
  else if x < 0 ∧ 0 ≤ y then arctan (y / x) + π
  else if x < 0 ∧ y < 0 then arctan (y / x) - π
  else if x = 0 ∧ 0 < y then π / 2
  else if x = 0 ∧ y < 0 then -(π / 2)
  else 0

/-- The haversine distance `calculateDistance` (source lines 37-47):
Earth radius 6371 km. -/
noncomputable def calculateDistance (lat1 lng1 lat2 lng2 : ℝ) : ℝ :=
  let R : ℝ := 6371
  let dLat := (lat2 - lat1) * π / 180
  let dLng := (lng2 - lng1) * π / 180
  let a :=
    Real.sin (dLat / 2) * Real.sin (dLat / 2) +
      Real.cos (lat1 * π / 180) * Real.cos (lat2 * π / 180) *
        Real.sin (dLng / 2) * Real.sin (dLng / 2)
  let c := 2 * atan2 (Real.sqrt a) (Real.sqrt (1 - a))
  R * c

/-- The bounding box computed at the top of each tier query (source lines
56-67 / 521-527): constant-km-per-degree latitude delta, cosine-adjusted
longitude delta, and a fixed 0.1-degree buffer on every side. -/
structure BBox where
  minLat : ℝ
  maxLat : ℝ
  minLng : ℝ
  maxLng : ℝ

noncomputable def boundingBox (lat lng radius : ℝ) : BBox :=
  let latDelta := radius / 111.32
  let lngDelta := radius / (111.32 * Real.cos (|lat| * π / 180))
  let buffer : ℝ := 0.1
  ⟨lat - latDelta - buffer, lat + latDelta + buffer,
    lng - lngDelta - buffer, lng + lngDelta + buffer⟩

/-- The pipeline instantiated with the idealised haversine: distances are
real numbers and the parsed rational coordinates/radius are cast into `ℝ`. -/
noncomputable def distR : ℚ → ℚ → ℚ → ℚ → ℝ :=
  fun a b c d => calculateDistance (a : ℝ) (b : ℝ) (c : ℝ) (d : ℝ)

noncomputable def q2aR : ℚ → ℝ := fun q => (q : ℝ)

/-- Trivial distance model used to instantiate parametric theorems in
witnesses. -/
def distQ0 : ℚ → ℚ → ℚ → ℚ → ℚ := fun _ _ _ _ => 0

/-! ## Invariants of filtered item lists -/

/-- Well-formedness of an item list produced by a tier for the given centre
and radius: at most 50 items, and every item's coordinate strings parse to
numbers whose distance from the centre is at most the radius. -/
def ItemsWF {α : Type} [LinearOrder α] (dist : ℚ → ℚ → ℚ → ℚ → α)
    (q2a : ℚ → α) (clat clng radius : ℚ) (items : List (WItem α)) : Prop :=
  items.length ≤ 50 ∧
    ∀ it ∈ items, ∃ la ln, parseFloatQ it.lat = some la ∧
      parseFloatQ it.lng = some ln ∧ dist clat clng la ln ≤ q2a radius

/-- Reachable-state invariant of the `unstable_cache` store: every entry was
produced by `queryWikidata` for exactly its key's parameters, hence is
well-formed for them. -/
def CacheWF {α : Type} [LinearOrder α] (dist : ℚ → ℚ → ℚ → ℚ → α)
    (q2a : ℚ → α) (cache : Cache α) : Prop :=
  ∀ k v, cache k = some v → ItemsWF dist q2a k.1 k.2.1 k.2.2.1 v

theorem tierStep_some {α : Type} [LinearOrder α]
    {dist : ℚ → ℚ → ℚ → ℚ → α} {clat clng : ℚ} {radius : α}
    {it it' : WItem α} (h : tierStep dist clat clng radius it = some it') :
    ∃ la ln, parseFloatQ it.lat = some la ∧ parseFloatQ it.lng = some ln ∧
      dist clat clng la ln ≤ radius ∧
      it' = { it with distance := some (dist clat clng la ln) } := by
  cases hla : parseFloatQ it.lat with
  | none => simp [tierStep, hla] at h
  | some la =>
    cases hln : parseFloatQ it.lng with
    | none => simp [tierStep, hla, hln] at h
    | some ln =>
      simp only [tierStep, hla, hln] at h
      split at h
      · exact ⟨la, ln, rfl, rfl, by assumption, (Option.some_inj.mp h).symm⟩
      · cases h

theorem mem_filterByRadius {α : Type} [LinearOrder α]
    {dist : ℚ → ℚ → ℚ → ℚ → α} {clat clng : ℚ} {radius : α}
    {items : List (WItem α)} {it' : WItem α}
    (h : it' ∈ filterByRadius dist clat clng radius items) :
    ∃ la ln, parseFloatQ it'.lat = some la ∧ parseFloatQ it'.lng = some ln ∧
      dist clat clng la ln ≤ radius := by
  have h2 : it' ∈ items.filterMap (tierStep dist clat clng radius) :=
    List.take_subset 50 _ h
  obtain ⟨it, _, hstep⟩ := List.mem_filterMap.mp h2
  obtain ⟨la, ln, hla, hln, hle, heq⟩ := tierStep_some hstep
  subst heq
  exact ⟨la, ln, hla, hln, hle⟩

theorem length_filterByRadius_le {α : Type} [LinearOrder α]
    (dist : ℚ → ℚ → ℚ → ℚ → α) (clat clng : ℚ) (radius : α)
    (items : List (WItem α)) :
    (filterByRadius dist clat clng radius items).length ≤ 50 := by
  unfold filterByRadius
  simp

theorem itemsWF_filterByRadius {α : Type} [LinearOrder α]
    (dist : ℚ → ℚ → ℚ → ℚ → α) (q2a : ℚ → α) (clat clng radius : ℚ)
    (items : List (WItem α)) :
    ItemsWF dist q2a clat clng radius
      (filterByRadius dist clat clng (q2a radius) items) :=
  ⟨length_filterByRadius_le _ _ _ _ _,
    fun _ hit => mem_filterByRadius hit⟩

theorem itemsWF_nil {α : Type} [LinearOrder α]
    (dist : ℚ → ℚ → ℚ → ℚ → α) (q2a : ℚ → α) (clat clng radius : ℚ) :
    ItemsWF dist q2a clat clng radius [] :=
  ⟨by simp, by simp⟩

theorem itemsWF_fallback {α : Type} [LinearOrder α]
    (dist : ℚ → ℚ → ℚ → ℚ → α) (q2a : ℚ → α) (clat clng radius : ℚ)
    (resp : UpResp) :
    ItemsWF dist q2a clat clng radius
      (queryWikidataFallback dist clat clng (q2a radius) resp) := by
  unfold queryWikidataFallback
  split
  · exact itemsWF_nil dist q2a clat clng radius
  · cases resp.bindings with
    | none => exact itemsWF_nil dist q2a clat clng radius
    | some bs => exact itemsWF_filterByRadius dist q2a clat clng radius _

theorem cachedQuery_ok_wf {α : Type} [LinearOrder α]
    {dist : ℚ → ℚ → ℚ → ℚ → α} {q2a : ℚ → α} {clat clng radius : ℚ}
    {sy ey : ℤ} {resp : UpResp} {cache cache' : Cache α}
    {items : List (WItem α)} {n : ℕ}
    (hwf : CacheWF dist q2a cache)
    (h : cachedQueryWikidata dist q2a clat clng radius sy ey resp cache =
      (.ok items, cache', n)) :
    ItemsWF dist q2a clat clng radius items := by
  unfold cachedQueryWikidata at h
  cases hc : cache (clat, clng, radius, sy, ey) with
  | some v =>
    simp only [hc] at h
    simp only [Prod.mk.injEq, Except.ok.injEq] at h
    exact h.1 ▸ hwf _ _ hc
  | none =>
    simp only [hc] at h
    unfold queryWikidata at h
    by_cases ho : resp.ok
    · simp only [ho, not_true_eq_false, if_false] at h
      cases hb : resp.bindings with
      | none =>
        rw [hb] at h
        simp only [Prod.mk.injEq, Except.ok.injEq] at h
        exact h.1 ▸ itemsWF_nil dist q2a clat clng radius
      | some bs =>
        rw [hb] at h
        simp only [Prod.mk.injEq, Except.ok.injEq] at h
        exact h.1 ▸ itemsWF_filterByRadius dist q2a clat clng radius _
    · simp only [ho, not_false_eq_true, if_true] at h
      simp at h

theorem mem_convertToGeoJSON {α : Type} {items : List (WItem α)}
    {clat clng : ℚ} {f : Feature α}
    (h : f ∈ (convertToGeoJSON items clat clng).features) :
    ∃ it ∈ items, parseFloatQ it.lat = some f.lat ∧
      parseFloatQ it.lng = some f.lng ∧ f.props = none := by
  obtain ⟨it, hit, hg⟩ := List.mem_filterMap.mp h
  cases hla : parseFloatQ it.lat with
  | none => simp [hla] at hg
  | some la =>
    cases hln : parseFloatQ it.lng with
    | none => simp [hla, hln] at hg
    | some ln =>
      simp only [hla, hln, Option.some_inj] at hg
      exact ⟨it, hit, by rw [← hg]; exact hla, by rw [← hg]; exact hln,
        by rw [← hg]⟩

theorem mem_convertToFullGeoJSON {α : Type} [LinearOrder α]
    {dist : ℚ → ℚ → ℚ → ℚ → α} {items : List (WItem α)}
    {clat clng : ℚ} {radius : α} {f : Feature α}
    (h : f ∈ (convertToFullGeoJSON dist items clat clng radius).features) :
    ∃ it ∈ items, parseFloatQ it.lat = some f.lat ∧
      parseFloatQ it.lng = some f.lng ∧
      dist clat clng f.lat f.lng ≤ radius := by
  obtain ⟨it, hit, hg⟩ := List.mem_filterMap.mp h
  cases hla : parseFloatQ it.lat with
  | none => simp [hla] at hg
  | some la =>
    cases hln : parseFloatQ it.lng with
    | none => simp [hla, hln] at hg
    | some ln =>
      simp only [hla, hln] at hg
      split at hg
      · cases hg
      · rename_i hlt
        rw [Option.some_inj] at hg
        refine ⟨it, hit, by rw [← hg]; exact hla, by rw [← hg]; exact hln, ?_⟩
        rw [← hg]
        exact not_lt.mp hlt

/-- Inversion of a successful `GET` run: the response body is one of the two
converters applied to a well-formed item list for the request's parsed
centre and radius. -/
theorem GET_ok_inv {α : Type} [LinearOrder α]
    {dist : ℚ → ℚ → ℚ → ℚ → α} {q2a : ℚ → α} {cy : ℤ} {req : ReqParams}
    {up : Upstream} {cache cache' : Cache α} {fc : FeatureCollection α}
    {tr : Trace} {lat lng radius : ℚ}
    (hwf : CacheWF dist q2a cache)
    (hrun : GET dist q2a cy req up cache = (.ok fc, cache', tr))
    (hlat : parseFloatQ (jsOrS req.lat "0") = some lat)
    (hlng : parseFloatQ (jsOrS req.lng "0") = some lng)
    (hr : parseFloatQ (jsOrS req.r "8.0467") = some radius) :
    ∃ items, ItemsWF dist q2a lat lng radius items ∧
      (fc = convertToGeoJSON items lat lng ∨
        fc = convertToFullGeoJSON dist items lat lng (q2a radius)) := by
  unfold GET at hrun
  simp only [hlat, hlng, hr] at hrun
  cases hsy : parseIntJS (jsOrS req.startYear "1500") with
  | none => simp only [hsy] at hrun; simp at hrun
  | some sy =>
  cases hey : parseIntJS (jsOrS req.endYear (toString cy)) with
  | none => simp only [hsy, hey] at hrun; simp at hrun
  | some ey =>
  simp only [hsy, hey] at hrun
  split at hrun
  · simp at hrun
  split at hrun
  · simp at hrun
  split at hrun
  · simp at hrun
  split at hrun
  · simp at hrun
  rcases hq : cachedQueryWikidata dist q2a lat lng radius sy ey up.primary
      cache with ⟨res, c2, n⟩
  rw [hq] at hrun
  cases res with
  | error e => simp at hrun
  | ok items0 =>
    have hwf0 : ItemsWF dist q2a lat lng radius items0 :=
      cachedQuery_ok_wf hwf hq
    dsimp only at hrun
    by_cases hlen : items0.length = 0
    · simp only [hlen, if_pos, if_true] at hrun
      by_cases hco : req.coordinates = some "true"
      · simp only [hco, if_pos, if_true] at hrun
        simp only [Prod.mk.injEq, ApiResponse.ok.injEq] at hrun
        exact ⟨_, itemsWF_fallback dist q2a lat lng radius up.fallback,
          Or.inl hrun.1.symm⟩
      · simp only [hco, if_neg, if_false] at hrun
        simp only [Prod.mk.injEq, ApiResponse.ok.injEq] at hrun
        exact ⟨_, itemsWF_fallback dist q2a lat lng radius up.fallback,
          Or.inr hrun.1.symm⟩
    · simp only [hlen, if_neg, if_false] at hrun
      by_cases hco : req.coordinates = some "true"
      · simp only [hco, if_pos, if_true] at hrun
        simp only [Prod.mk.injEq, ApiResponse.ok.injEq] at hrun
        exact ⟨items0, hwf0, Or.inl hrun.1.symm⟩
      · simp only [hco, if_neg, if_false] at hrun
        simp only [Prod.mk.injEq, ApiResponse.ok.injEq] at hrun
        exact ⟨items0, hwf0, Or.inr hrun.1.symm⟩

/-! ## Order preservation of the distance filter -/

/-- Erase the attached distance, leaving the upstream row content. -/
def clearDist {α : Type} (it : WItem α) : WItem α := { it with distance := none }

theorem filterMap_tierStep_sublist {α : Type} [LinearOrder α]
    (dist : ℚ → ℚ → ℚ → ℚ → α) (clat clng : ℚ) (radius : α) :
    ∀ items : List (WItem α),
      ((items.filterMap (tierStep dist clat clng radius)).map clearDist).Sublist
        (items.map clearDist)
  | [] => by simp
  | a :: l => by
    cases hstep : tierStep dist clat clng radius a with
    | none =>
      simp only [List.filterMap_cons, hstep, List.map_cons]
      exact (filterMap_tierStep_sublist dist clat clng radius l).cons _
    | some b =>
      obtain ⟨la, ln, -, -, -, hb⟩ := tierStep_some hstep
      have hcb : clearDist b = clearDist a := by rw [hb]; rfl
      simp only [List.filterMap_cons, hstep, List.map_cons, hcb]
      exact (filterMap_tierStep_sublist dist clat clng radius l).cons₂ _

theorem filterByRadius_sublist {α : Type} [LinearOrder α]
    (dist : ℚ → ℚ → ℚ → ℚ → α) (clat clng : ℚ) (radius : α)
    (items : List (WItem α)) :
    ((filterByRadius dist clat clng radius items).map clearDist).Sublist
      (items.map clearDist) := by
  unfold filterByRadius
  rw [List.map_take]
  exact (List.take_sublist 50 _).trans
    (filterMap_tierStep_sublist dist clat clng radius items)

/-! ## Evaluation lemmas for the idealised haversine -/

theorem atan2_sin_cos {t : ℝ} (h0 : 0 < t) (h1 : t < π / 2) :
    atan2 (Real.sin t) (Real.cos t) = t := by
  unfold atan2
  rw [if_pos (Real.cos_pos_of_mem_Ioo ⟨by linarith [Real.pi_pos], h1⟩)]
  rw [← Real.tan_eq_sin_div_cos]
  exact Real.arctan_tan (by linarith [Real.pi_pos]) h1

theorem calculateDistance_self (la ln : ℝ) : calculateDistance la ln la ln = 0 := by
  unfold calculateDistance atan2
  norm_num [Real.sqrt_zero, Real.sqrt_one, Real.arctan_zero]

/-- On the equator, the haversine distance between longitudes `l1 < l2`
(less than half a turn apart) is the exact arc length. -/
theorem calculateDistance_equator {l1 l2 : ℝ} (h0 : l1 < l2)
    (h1 : l2 - l1 < 180) :
    calculateDistance 0 l1 0 l2 = 6371 * ((l2 - l1) * π / 180) := by
  have hd0 : 0 < l2 - l1 := sub_pos.mpr h0
  have hx0 : 0 < (l2 - l1) * π / 180 / 2 := by
    have := Real.pi_pos
    positivity
  have hx1 : (l2 - l1) * π / 180 / 2 < π / 2 := by
    have hp := Real.pi_pos
    rw [div_lt_div_iff₀ (by norm_num) (by norm_num : (0:ℝ) < 2)]
    nlinarith
  set x : ℝ := (l2 - l1) * π / 180 / 2 with hxdef
  have hsin : 0 ≤ Real.sin x := le_of_lt (Real.sin_pos_of_pos_of_lt_pi hx0
    (lt_trans hx1 (by linarith [Real.pi_pos])))
  have hcos : 0 < Real.cos x := Real.cos_pos_of_mem_Ioo ⟨by linarith [Real.pi_pos], hx1⟩
  have hids : Real.sin x * Real.sin x + Real.cos x * Real.cos x = 1 := by
    have := Real.sin_sq_add_cos_sq x
    nlinarith
  unfold calculateDistance
  have e1 : (0 - 0 : ℝ) * π / 180 / 2 = 0 := by ring
  have e2 : ((0:ℝ) * π / 180) = 0 := by ring
  simp only [e1, e2, Real.sin_zero, Real.cos_zero]
  have ea : (0 * 0 + 1 * 1 * Real.sin ((l2 - l1) * π / 180 / 2) *
      Real.sin ((l2 - l1) * π / 180 / 2) : ℝ) = Real.sin x * Real.sin x := by
    rw [hxdef]; ring
  rw [ea]
  have esq : Real.sqrt (Real.sin x * Real.sin x) = Real.sin x :=
    Real.sqrt_mul_self hsin
  have ecsq : (1 : ℝ) - Real.sin x * Real.sin x = Real.cos x * Real.cos x := by
    nlinarith [hids]
  rw [esq, ecsq, Real.sqrt_mul_self (le_of_lt hcos), atan2_sin_cos hx0 hx1]
  rw [hxdef]; ring

/-- On the equator, the haversine distance between longitudes more than half
a turn apart (as raw numbers) wraps around the antimeridian: the computed
distance is the short way round. -/
theorem calculateDistance_equator_wrap {l1 l2 : ℝ} (h0 : l2 - l1 < -180)
    (h1 : -360 < l2 - l1) :
    calculateDistance 0 l1 0 l2 = 6371 * ((l2 - l1 + 360) * π / 180) := by
  have hs : 0 < l2 - l1 + 360 := by linarith
  have hu0 : 0 < (l2 - l1 + 360) * π / 360 := by
    have := Real.pi_pos
    positivity
  have hu1 : (l2 - l1 + 360) * π / 360 < π / 2 := by
    have hp := Real.pi_pos
    rw [div_lt_div_iff₀ (by norm_num) (by norm_num : (0:ℝ) < 2)]
    nlinarith
  set u : ℝ := (l2 - l1 + 360) * π / 360 with hudef
  have hsin : 0 ≤ Real.sin u := le_of_lt (Real.sin_pos_of_pos_of_lt_pi hu0
    (lt_trans hu1 (by linarith [Real.pi_pos])))
  have hcos : 0 < Real.cos u := Real.cos_pos_of_mem_Ioo
    ⟨by linarith [Real.pi_pos], hu1⟩
  have hids : Real.sin u * Real.sin u + Real.cos u * Real.cos u = 1 := by
    have := Real.sin_sq_add_cos_sq u
    nlinarith
  unfold calculateDistance
  have e1 : (0 - 0 : ℝ) * π / 180 / 2 = 0 := by ring
  have e2 : ((0:ℝ) * π / 180) = 0 := by ring
  have e3 : (l2 - l1) * π / 180 / 2 = u - π := by rw [hudef]; ring
  simp only [e1, e2, e3, Real.sin_zero, Real.cos_zero, Real.sin_sub,
    Real.sin_pi, Real.cos_pi]
  have ea : (0 * 0 + 1 * 1 * (Real.sin u * -1 - Real.cos u * 0) *
      (Real.sin u * -1 - Real.cos u * 0) : ℝ) = Real.sin u * Real.sin u := by
    ring
  rw [ea]
  have esq : Real.sqrt (Real.sin u * Real.sin u) = Real.sin u :=
    Real.sqrt_mul_self hsin
  have ecsq : (1 : ℝ) - Real.sin u * Real.sin u = Real.cos u * Real.cos u := by
    nlinarith [hids]
  rw [esq, ecsq, Real.sqrt_mul_self (le_of_lt hcos), atan2_sin_cos hu0 hu1]
  rw [hudef]; ring

/-- The haversine intermediate `a` of `calculateDistance`. -/
noncomputable def havA (lat1 lng1 lat2 lng2 : ℝ) : ℝ :=
  Real.sin ((lat2 - lat1) * π / 180 / 2) * Real.sin ((lat2 - lat1) * π / 180 / 2) +
    Real.cos (lat1 * π / 180) * Real.cos (lat2 * π / 180) *
      Real.sin ((lng2 - lng1) * π / 180 / 2) *
      Real.sin ((lng2 - lng1) * π / 180 / 2)

theorem calculateDistance_havA (lat1 lng1 lat2 lng2 : ℝ) :
    calculateDistance lat1 lng1 lat2 lng2 =
      6371 * (2 * atan2 (Real.sqrt (havA lat1 lng1 lat2 lng2))
        (Real.sqrt (1 - havA lat1 lng1 lat2 lng2))) := rfl

theorem atan2_sqrt_eq_arcsin {a : ℝ} (h0 : 0 ≤ a) (h1 : a ≤ 1) :
    atan2 (Real.sqrt a) (Real.sqrt (1 - a)) = Real.arcsin (Real.sqrt a) := by
  rcases eq_or_lt_of_le h1 with h1e | h1l
  · subst h1e
    simp only [sub_self, Real.sqrt_zero, Real.sqrt_one, atan2]
    norm_num [Real.arcsin_one]
  · have hx : 0 < Real.sqrt (1 - a) := Real.sqrt_pos.mpr (by linarith)
    unfold atan2
    rw [if_pos hx]
    have hmem : Real.sqrt a ∈ Set.Ioo (-(1:ℝ)) 1 := by
      constructor
      · have := Real.sqrt_nonneg a; linarith
      · exact (Real.sqrt_lt' (by norm_num)).mpr (by nlinarith)
    rw [Real.arcsin_eq_arctan hmem, Real.sq_sqrt h0]

/-- Bounds on the haversine intermediate `a` for latitudes within
`[-90, 90]` degrees. -/
theorem havA_bounds {lat1 lng1 lat2 lng2 : ℝ} (h1 : |lat1| ≤ 90)
    (h2 : |lat2| ≤ 90) :
    0 ≤ havA lat1 lng1 lat2 lng2 ∧ havA lat1 lng1 lat2 lng2 ≤ 1 := by
  obtain ⟨h1l, h1u⟩ := abs_le.mp h1
  obtain ⟨h2l, h2u⟩ := abs_le.mp h2
  have hπ := Real.pi_pos
  set u := lat1 * π / 180 with hu
  set v := lat2 * π / 180 with hv
  set w := (lat2 - lat1) * π / 180 / 2 with hw
  set z := (lng2 - lng1) * π / 180 / 2 with hz
  have hub : -(π/2) ≤ u ∧ u ≤ π/2 := by
    constructor <;> [nlinarith; nlinarith]
  have hvb : -(π/2) ≤ v ∧ v ≤ π/2 := by
    constructor <;> [nlinarith; nlinarith]
  have hcu : 0 ≤ Real.cos u := Real.cos_nonneg_of_mem_Icc ⟨hub.1, hub.2⟩
  have hcv : 0 ≤ Real.cos v := Real.cos_nonneg_of_mem_Icc ⟨hvb.1, hvb.2⟩
  have h2w : 2 * w = v - u := by rw [hw, hu, hv]; ring
  have hcsq : Real.cos w ^ 2 = 1 / 2 + Real.cos (v - u) / 2 := by
    rw [← h2w]; exact Real.cos_sq w
  have hcvu : Real.cos (v - u) = Real.cos v * Real.cos u +
      Real.sin v * Real.sin u := Real.cos_sub v u
  have hcadd : Real.cos (u + v) = Real.cos u * Real.cos v -
      Real.sin u * Real.sin v := Real.cos_add u v
  have hcle : Real.cos (u + v) ≤ 1 := Real.cos_le_one _
  have hpyth : Real.sin w ^ 2 + Real.cos w ^ 2 = 1 := Real.sin_sq_add_cos_sq w
  have hz1 : Real.sin z * Real.sin z ≤ 1 := by
    have := Real.sin_sq_le_one z; nlinarith [Real.sin_sq_le_one z]
  have hz0 : 0 ≤ Real.sin z * Real.sin z := mul_self_nonneg _
  have hw0 : 0 ≤ Real.sin w * Real.sin w := mul_self_nonneg _
  have hcc : 0 ≤ Real.cos u * Real.cos v := mul_nonneg hcu hcv
  constructor
  · have : 0 ≤ Real.cos u * Real.cos v * (Real.sin z * Real.sin z) :=
      mul_nonneg hcc hz0
    unfold havA
    rw [← hu, ← hv, ← hw, ← hz]
    nlinarith
  · unfold havA
    rw [← hu, ← hv, ← hw, ← hz]
    nlinarith [mul_le_of_le_one_right hcc hz1]

/-- From a haversine-distance bound, a bound on the latitude difference:
the authoritative latitude-containment step behind the bounding box. -/
theorem latDiff_le_of_dist_le {lat1 lng1 lat2 lng2 r : ℝ}
    (h1 : |lat1| ≤ 90) (h2 : |lat2| ≤ 90) (hr1 : 0 ≤ r) (hr5 : r ≤ 500)
    (hd : calculateDistance lat1 lng1 lat2 lng2 ≤ r) :
    |lat2 - lat1| ≤ r / 111.32 + 0.1 := by
  obtain ⟨h1l, h1u⟩ := abs_le.mp h1
  obtain ⟨h2l, h2u⟩ := abs_le.mp h2
  have hπ := Real.pi_pos
  obtain ⟨hA0, hA1⟩ := @havA_bounds lat1 lng1 lat2 lng2 h1 h2
  rw [calculateDistance_havA, atan2_sqrt_eq_arcsin hA0 hA1] at hd
  set A := havA lat1 lng1 lat2 lng2 with hA
  set w := (lat2 - lat1) * π / 180 / 2 with hw
  have harc : Real.arcsin (Real.sqrt A) ≤ r / 12742 := by linarith
  have hswA : Real.sin w * Real.sin w ≤ A := by
    have hub : -(π/2) ≤ lat1 * π / 180 ∧ lat1 * π / 180 ≤ π/2 := by
      constructor <;> [nlinarith; nlinarith]
    have hvb : -(π/2) ≤ lat2 * π / 180 ∧ lat2 * π / 180 ≤ π/2 := by
      constructor <;> [nlinarith; nlinarith]
    have hcu : 0 ≤ Real.cos (lat1 * π / 180) :=
      Real.cos_nonneg_of_mem_Icc ⟨hub.1, hub.2⟩
    have hcv : 0 ≤ Real.cos (lat2 * π / 180) :=
      Real.cos_nonneg_of_mem_Icc ⟨hvb.1, hvb.2⟩
    have := mul_nonneg (mul_nonneg hcu hcv)
      (mul_self_nonneg (Real.sin ((lng2 - lng1) * π / 180 / 2)))
    rw [hA]
    unfold havA
    rw [← hw]
    nlinarith
  have habs : |Real.sin w| ≤ Real.sqrt A := by
    rw [← Real.sqrt_mul_self_eq_abs]
    exact Real.sqrt_le_sqrt hswA
  have hwb : |w| ≤ π / 2 := by
    rw [abs_le]
    constructor <;> [nlinarith; nlinarith]
  have hsinabs : |Real.sin w| = Real.sin |w| := by
    rcases le_or_lt 0 w with hw0 | hw0
    · rw [abs_of_nonneg hw0, abs_of_nonneg]
      exact Real.sin_nonneg_of_nonneg_of_le_pi hw0
        (le_trans (abs_le.mp hwb).2 (by linarith) : w ≤ π)
    · have hnw : 0 ≤ -w := by linarith
      have hsnn : 0 ≤ Real.sin (-w) := Real.sin_nonneg_of_nonneg_of_le_pi hnw
        (by have := (abs_le.mp hwb).1; have := Real.pi_pos; linarith)
      have hsnp : Real.sin w ≤ 0 := by
        have he : Real.sin w = -Real.sin (-w) := by rw [Real.sin_neg, neg_neg]
        rw [he]; linarith
      rw [abs_of_neg hw0, Real.sin_neg, abs_of_nonpos hsnp]
  have hfin : |w| ≤ r / 12742 := by
    have e1 : Real.arcsin (Real.sin |w|) = |w| :=
      Real.arcsin_sin (le_trans (by linarith [abs_nonneg w]) (abs_nonneg w))
        hwb
    calc |w| = Real.arcsin (Real.sin |w|) := e1.symm
      _ = Real.arcsin |Real.sin w| := by rw [hsinabs]
      _ ≤ Real.arcsin (Real.sqrt A) := Real.monotone_arcsin habs
      _ ≤ r / 12742 := harc
  have hwabs : |w| = |lat2 - lat1| * π / 360 := by
    rw [hw, show (lat2 - lat1) * π / 180 / 2 = (lat2 - lat1) * (π / 360) from
      by ring, abs_mul, abs_of_pos (by positivity : (0:ℝ) < π / 360)]
    ring
  have hDpi : |lat2 - lat1| * π ≤ 360 * (r / 12742) := by
    rw [hwabs] at hfin; linarith
  have hpi6 : (3.141592 : ℝ) < π := Real.pi_gt_d6
  have hD0 : 0 ≤ |lat2 - lat1| := abs_nonneg _
  have hD3 : |lat2 - lat1| * 3.141592 ≤ 360 * (r / 12742) := by
    nlinarith
  norm_num at hD3 ⊢
  linarith

/-! ## Evaluation of the handler on the happy path -/

/-- Full evaluation of `GET` when validation passes, the cache misses, and
the primary upstream response is well-formed. -/
theorem GET_run {α : Type} [LinearOrder α] {dist : ℚ → ℚ → ℚ → ℚ → α}
    {q2a : ℚ → α} {cy : ℤ} {req : ReqParams} {up : Upstream}
    {cache : Cache α} {lat lng radius : ℚ} {sy ey : ℤ} {bs : List Binding}
    (hlat : parseFloatQ (jsOrS req.lat "0") = some lat)
    (hlng : parseFloatQ (jsOrS req.lng "0") = some lng)
    (hr : parseFloatQ (jsOrS req.r "8.0467") = some radius)
    (hsy : parseIntJS (jsOrS req.startYear "1500") = some sy)
    (hey : parseIntJS (jsOrS req.endYear (toString cy)) = some ey)
    (hv1 : sy ≤ ey) (hv2 : ey ≤ cy) (hv3 : 1 ≤ radius) (hv4 : radius ≤ 500)
    (hmiss : cache (lat, lng, radius, sy, ey) = none)
    (hok : up.primary.ok = true)
    (hbind : up.primary.bindings = some bs) :
    GET dist q2a cy req up cache =
      ((.ok (if req.coordinates = some "true" then
          convertToGeoJSON
            (if (filterByRadius dist lat lng (q2a radius)
                (bs.map toItemMain)).length = 0 then
              queryWikidataFallback dist lat lng (q2a radius) up.fallback
            else filterByRadius dist lat lng (q2a radius) (bs.map toItemMain))
            lat lng
        else
          convertToFullGeoJSON dist
            (if (filterByRadius dist lat lng (q2a radius)
                (bs.map toItemMain)).length = 0 then
              queryWikidataFallback dist lat lng (q2a radius) up.fallback
            else filterByRadius dist lat lng (q2a radius) (bs.map toItemMain))
            lat lng (q2a radius))),
        cacheInsert cache (lat, lng, radius, sy, ey)
          (filterByRadius dist lat lng (q2a radius) (bs.map toItemMain)),
        ⟨1, 1,
          if (filterByRadius dist lat lng (q2a radius)
              (bs.map toItemMain)).length = 0 then 1 else 0,
          some (lat, lng, radius, sy, ey)⟩) := by
  unfold GET cachedQueryWikidata queryWikidata
  simp only [hlat, hlng, hr, hsy, hey, if_neg (not_lt.mpr hv1),
    if_neg (not_lt.mpr hv2), if_neg (not_lt.mpr hv3), if_neg (not_lt.mpr hv4),
    hmiss, hok, hbind, not_true_eq_false, if_false, Bool.not_eq_true]
  by_cases hlen : (filterByRadius dist lat lng (q2a radius)
      (bs.map toItemMain)).length = 0
  · simp only [hlen, if_pos, if_true]
  · simp only [hlen, if_neg, if_false]

/-- When validation passes, the handler always reaches the query stage with
the parsed search arguments and never produces a 400 response. -/
theorem GET_reaches {α : Type} [LinearOrder α] {dist : ℚ → ℚ → ℚ → ℚ → α}
    {q2a : ℚ → α} {cy : ℤ} {req : ReqParams} {up : Upstream}
    {cache : Cache α} {lat lng radius : ℚ} {sy ey : ℤ}
    (hlat : parseFloatQ (jsOrS req.lat "0") = some lat)
    (hlng : parseFloatQ (jsOrS req.lng "0") = some lng)
    (hr : parseFloatQ (jsOrS req.r "8.0467") = some radius)
    (hsy : parseIntJS (jsOrS req.startYear "1500") = some sy)
    (hey : parseIntJS (jsOrS req.endYear (toString cy)) = some ey)
    (hv1 : sy ≤ ey) (hv2 : ey ≤ cy) (hv3 : 1 ≤ radius) (hv4 : radius ≤ 500) :
    ∃ resp cache' n fbn, GET dist q2a cy req up cache =
      (resp, cache', ⟨1, n, fbn, some (lat, lng, radius, sy, ey)⟩) ∧
      ∀ m, resp ≠ .err 400 m := by
  unfold GET
  simp only [hlat, hlng, hr, hsy, hey, if_neg (not_lt.mpr hv1),
    if_neg (not_lt.mpr hv2), if_neg (not_lt.mpr hv3), if_neg (not_lt.mpr hv4)]
  rcases hq : cachedQueryWikidata dist q2a lat lng radius sy ey up.primary
      cache with ⟨res, c2, n⟩
  cases res with
  | error e =>
    refine ⟨_, _, n, 0, rfl, fun m h => ?_⟩
    cases h
  | ok items0 =>
    dsimp only
    refine ⟨_, _, n, _, rfl, fun m h => ?_⟩
    cases h

/-! ## Exactness of the geometry-string recovery match -/

theorem toList_ne_nil {s : String} (h : s ≠ "") : s.toList ≠ [] := by
  intro hl
  apply h
  cases s with
  | mk d => simp only [String.toList] at hl; subst hl; rfl

theorem takeUntil_eq (stop : Char) (pre post : List Char)
    (hpre : ∀ c ∈ pre, c ≠ stop) :
    takeUntil stop (pre ++ stop :: post) = (pre, stop :: post) := by
  induction pre with
  | nil => simp [takeUntil]
  | cons c cs ih =>
    have hc : c ≠ stop := hpre c (by simp)
    have ih' := ih (fun c' hc' => hpre c' (by simp [hc']))
    simp only [List.cons_append, takeUntil, if_neg hc, List.append_eq, ih']

theorem matchPoint_exact (A B : String) (hAne : A ≠ "")
    (hAc : ∀ c ∈ A.toList, c ≠ ' ') (hBne : B ≠ "")
    (hBc : ∀ c ∈ B.toList, c ≠ ')') :
    matchPoint ("Point(" ++ A ++ " " ++ B ++ ")").toList = some (A, B) := by
  have hlist : ("Point(" ++ A ++ " " ++ B ++ ")").toList =
      'P' :: 'o' :: 'i' :: 'n' :: 't' :: '(' ::
        (A.toList ++ ' ' :: (B.toList ++ [')'])) := by
    simp [String.toList]
  rw [hlist]
  have h1 : takeUntil ' ' (A.toList ++ ' ' :: (B.toList ++ [')'])) =
      (A.toList, ' ' :: (B.toList ++ [')'])) :=
    takeUntil_eq ' ' A.toList (B.toList ++ [')']) hAc
  have h2 : takeUntil ')' (B.toList ++ [')']) = (B.toList, [')']) := by
    have h := takeUntil_eq ')' B.toList [] hBc
    simpa using h
  have hat : matchPointAt ('P' :: 'o' :: 'i' :: 'n' :: 't' :: '(' ::
      (A.toList ++ ' ' :: (B.toList ++ [')']))) = some (A, B) := by
    simp only [matchPointAt, h1, h2]
    simp [toList_ne_nil hAne, toList_ne_nil hBne]
    exact ⟨toList_ne_nil hAne, toList_ne_nil hBne⟩
  unfold matchPoint
  rw [hat]

/-! ## Concrete parse evaluations

`Rat` arithmetic does not reduce definitionally (its normalisation uses
well-founded recursion), so the concrete values of `parseFloatQ` are
established once here by rewriting the character-level steps (which do
reduce) and evaluating the final rational expression with `norm_num`. -/

theorem pfQ_zero : parseFloatQ "0" = some 0 := by
  unfold parseFloatQ
  norm_num [show "0".toList = ['0'] from by decide,
    show skipWS ['0'] = ['0'] from by decide,
    show parseSign ['0'] = (false, ['0']) from by decide,
    show takeDigits ['0'] 0 0 = (0, 1, []) from by decide, applyExp]

theorem pfQ_80 : parseFloatQ "80" = some 80 := by
  unfold parseFloatQ
  norm_num [show "80".toList = ['8', '0'] from by decide,
    show skipWS ['8', '0'] = ['8', '0'] from by decide,
    show parseSign ['8', '0'] = (false, ['8', '0']) from by decide,
    show takeDigits ['8', '0'] 0 0 = (80, 2, []) from by decide, applyExp]

theorem pfQ_02 : parseFloatQ "0.2" = some (1/5) := by
  unfold parseFloatQ
  norm_num [show "0.2".toList = ['0', '.', '2'] from by decide,
    show skipWS ['0', '.', '2'] = ['0', '.', '2'] from by decide,
    show parseSign ['0', '.', '2'] = (false, ['0', '.', '2']) from by decide,
    show takeDigits ['0', '.', '2'] 0 0 = (0, 1, ['.', '2']) from by decide,
    show takeDigits ['2'] 0 0 = (2, 1, []) from by decide, applyExp]

theorem pfQ_01 : parseFloatQ "0.1" = some (1/10) := by
  unfold parseFloatQ
  norm_num [show "0.1".toList = ['0', '.', '1'] from by decide,
    show skipWS ['0', '.', '1'] = ['0', '.', '1'] from by decide,
    show parseSign ['0', '.', '1'] = (false, ['0', '.', '1']) from by decide,
    show takeDigits ['0', '.', '1'] 0 0 = (0, 1, ['.', '1']) from by decide,
    show takeDigits ['1'] 0 0 = (1, 1, []) from by decide, applyExp]

theorem pfQ_05 : parseFloatQ "0.5" = some (1/2) := by
  unfold parseFloatQ
  norm_num [show "0.5".toList = ['0', '.', '5'] from by decide,
    show skipWS ['0', '.', '5'] = ['0', '.', '5'] from by decide,
    show parseSign ['0', '.', '5'] = (false, ['0', '.', '5']) from by decide,
    show takeDigits ['0', '.', '5'] 0 0 = (0, 1, ['.', '5']) from by decide,
    show takeDigits ['5'] 0 0 = (5, 1, []) from by decide, applyExp]

theorem piJS_1500 : parseIntJS "1500" = some 1500 := by decide

theorem piJS_2024 : parseIntJS "2024" = some 2024 := by decide

/-! ## Claims -/

/-- C8: if a row's structured coordinate fields are absent or extracted as
the string `0`, and its location string matches `Point(a b)`, the recovery
parse assigns the first number to `lng` and the second to `lat`, preserving
the longitude-first encoding, in both tiers' row parsers. -/
theorem claim_C8 (b : Binding) (A B : String)
    (htrig : jsOrS b.lat "0" = "0" ∨ jsOrS b.lng "0" = "0")
    (hloc : b.location = some ("Point(" ++ A ++ " " ++ B ++ ")"))
    (hAne : A ≠ "") (hAc : ∀ c ∈ A.toList, c ≠ ' ')
    (hBne : B ≠ "") (hBc : ∀ c ∈ B.toList, c ≠ ')') :
    extractCoords b = (B, A) ∧
      ∀ α : Type, ((toItemMain b : WItem α).lng = A ∧
          (toItemMain b : WItem α).lat = B) ∧
        ((toItemFallback b : WItem α).lng = A ∧
          (toItemFallback b : WItem α).lat = B) := by
  have hne : ("Point(" ++ A ++ " " ++ B ++ ")") ≠ "" := by
    intro h
    have h2 : ("Point(" ++ A ++ " " ++ B ++ ")").toList = [] := by rw [h]; rfl
    simp [String.toList] at h2
  have hloc' : jsOrS b.location "" = "Point(" ++ A ++ " " ++ B ++ ")" := by
    rw [hloc]; simp [jsOrS, hne]
  have hec : extractCoords b = (B, A) := by
    unfold extractCoords
    rw [if_pos ⟨htrig, by rw [hloc']; exact hne⟩]
    rw [hloc', matchPoint_exact A B hAne hAc hBne hBc]
  refine ⟨hec, fun α => ⟨⟨?_, ?_⟩, ?_, ?_⟩⟩ <;>
    simp [toItemMain, toItemFallback, hec]

def bW8 : Binding := { location := some "Point(-74.0 40.7)" }

/-- Witness for C8 at the spec's concrete scenario `Point(-74.0 40.7)`. -/
theorem claim_C8_witness :
    extractCoords bW8 = ("40.7", "-74.0") ∧
      ∀ α : Type, ((toItemMain bW8 : WItem α).lng = "-74.0" ∧
          (toItemMain bW8 : WItem α).lat = "40.7") ∧
        ((toItemFallback bW8 : WItem α).lng = "-74.0" ∧
          (toItemFallback bW8 : WItem α).lat = "40.7") :=
  claim_C8 bW8 "-74.0" "40.7" (Or.inl (by decide)) (by decide) (by decide)
    (by decide) (by decide) (by decide)

/-- C2: for every valid SearchRequest, every feature in a successful
response lies at distance at most the requested radius from the request
centre (for the pipeline's distance function, in particular the source's
haversine), under either tier and both output modes; and the per-record
distance filter has an inclusive boundary: a record whose distance equals
the radius exactly passes the filter. -/
theorem claim_C2 {α : Type} [LinearOrder α] (dist : ℚ → ℚ → ℚ → ℚ → α)
    (q2a : ℚ → α) (cy : ℤ) (req : ReqParams) (up : Upstream)
    (cache cache' : Cache α) (fc : FeatureCollection α) (tr : Trace)
    (lat lng radius : ℚ)
    (hwf : CacheWF dist q2a cache)
    (hrun : GET dist q2a cy req up cache = (.ok fc, cache', tr))
    (hlat : parseFloatQ (jsOrS req.lat "0") = some lat)
    (hlng : parseFloatQ (jsOrS req.lng "0") = some lng)
    (hr : parseFloatQ (jsOrS req.r "8.0467") = some radius) :
    (∀ f ∈ fc.features, dist lat lng f.lat f.lng ≤ q2a radius) ∧
      ∀ (it : WItem α) (la ln : ℚ), parseFloatQ it.lat = some la →
        parseFloatQ it.lng = some ln → dist lat lng la ln = q2a radius →
        tierStep dist lat lng (q2a radius) it ≠ none := by
  constructor
  · intro f hf
    obtain ⟨items, hWF, hfc⟩ := GET_ok_inv hwf hrun hlat hlng hr
    rcases hfc with h | h
    · subst h
      obtain ⟨it, hit, hla, hln, -⟩ := mem_convertToGeoJSON hf
      obtain ⟨la', ln', hla', hln', hle⟩ := hWF.2 it hit
      have e1 : la' = f.lat := Option.some_inj.mp (hla'.symm.trans hla)
      have e2 : ln' = f.lng := Option.some_inj.mp (hln'.symm.trans hln)
      rw [e1, e2] at hle
      exact hle
    · subst h
      obtain ⟨it, hit, -, -, hle⟩ := mem_convertToFullGeoJSON hf
      exact hle
  · intro it la ln hla hln heq
    simp only [tierStep, hla, hln]
    rw [if_pos (le_of_eq heq)]
    simp

def reqW : ReqParams :=
  { lat := some "0", lng := some "0", r := some "80",
    startYear := some "1500", endYear := some "2024" }

def upW : Upstream :=
  { primary := { ok := true, status := 200, bindings := some [] },
    fallback := { ok := true, status := 200, bindings := some [] } }

def q2aQ : ℚ → ℚ := fun q => q

theorem reqW_lat : parseFloatQ (jsOrS reqW.lat "0") = some 0 := by
  rw [show jsOrS reqW.lat "0" = "0" from by decide]; exact pfQ_zero

theorem reqW_lng : parseFloatQ (jsOrS reqW.lng "0") = some 0 := by
  rw [show jsOrS reqW.lng "0" = "0" from by decide]; exact pfQ_zero

theorem reqW_r : parseFloatQ (jsOrS reqW.r "8.0467") = some 80 := by
  rw [show jsOrS reqW.r "8.0467" = "80" from by decide]; exact pfQ_80

theorem reqW_sy : parseIntJS (jsOrS reqW.startYear "1500") = some 1500 := by
  rw [show jsOrS reqW.startYear "1500" = "1500" from by decide]
  exact piJS_1500

theorem reqW_ey :
    parseIntJS (jsOrS reqW.endYear (toString (2024 : ℤ))) = some 2024 := by
  rw [show jsOrS reqW.endYear (toString (2024 : ℤ)) = "2024" from by decide]
  exact piJS_2024

/-- The concrete run used by several witnesses: empty upstream results in
both tiers, validation passing, cache miss, fallback invoked. -/
theorem GETrunW :
    GET distQ0 q2aQ 2024 reqW upW (emptyCache ℚ) =
      (.ok ⟨[]⟩, cacheInsert (emptyCache ℚ) (0, 0, 80, 1500, 2024) [],
        ⟨1, 1, 1, some (0, 0, 80, 1500, 2024)⟩) := by
  rw [GET_run reqW_lat reqW_lng reqW_r reqW_sy reqW_ey (by norm_num)
    (by norm_num) (by norm_num) (by norm_num) rfl rfl rfl]
  simp [filterByRadius, queryWikidataFallback, convertToFullGeoJSON,
    convertToGeoJSON, upW, reqW]

/-- Witness for C2 on a concrete run with an empty upstream result. -/
theorem claim_C2_witness :
    (∀ f ∈ (FeatureCollection.mk ([] : List (Feature ℚ))).features,
      distQ0 0 0 f.lat f.lng ≤ q2aQ 80) ∧
      ∀ (it : WItem ℚ) (la ln : ℚ), parseFloatQ it.lat = some la →
        parseFloatQ it.lng = some ln → distQ0 0 0 la ln = q2aQ 80 →
        tierStep distQ0 0 0 (q2aQ 80) it ≠ none :=
  claim_C2 distQ0 q2aQ 2024 reqW upW (emptyCache ℚ)
    (cacheInsert (emptyCache ℚ) (0, 0, 80, 1500, 2024) []) ⟨[]⟩
    ⟨1, 1, 1, some (0, 0, 80, 1500, 2024)⟩ 0 0 80
    (fun _ _ h => Option.noConfusion h) GETrunW reqW_lat reqW_lng reqW_r

/-- C5: the number of features in a successful response never exceeds 50,
whichever tier (or cached result) produced the data, in both output
modes. -/
theorem claim_C5 {α : Type} [LinearOrder α] (dist : ℚ → ℚ → ℚ → ℚ → α)
    (q2a : ℚ → α) (cy : ℤ) (req : ReqParams) (up : Upstream)
    (cache cache' : Cache α) (fc : FeatureCollection α) (tr : Trace)
    (lat lng radius : ℚ)
    (hwf : CacheWF dist q2a cache)
    (hrun : GET dist q2a cy req up cache = (.ok fc, cache', tr))
    (hlat : parseFloatQ (jsOrS req.lat "0") = some lat)
    (hlng : parseFloatQ (jsOrS req.lng "0") = some lng)
    (hr : parseFloatQ (jsOrS req.r "8.0467") = some radius) :
    fc.features.length ≤ 50 := by
  obtain ⟨items, hWF, hfc⟩ := GET_ok_inv hwf hrun hlat hlng hr
  rcases hfc with h | h <;> subst h
  · exact le_trans (List.length_filterMap_le _ _) hWF.1
  · exact le_trans (List.length_filterMap_le _ _) hWF.1

/-- Witness for C5 on a concrete run with an empty upstream result. -/
theorem claim_C5_witness :
    (FeatureCollection.mk ([] : List (Feature ℚ))).features.length ≤ 50 :=
  claim_C5 distQ0 q2aQ 2024 reqW upW (emptyCache ℚ)
    (cacheInsert (emptyCache ℚ) (0, 0, 80, 1500, 2024) []) ⟨[]⟩
    ⟨1, 1, 1, some (0, 0, 80, 1500, 2024)⟩ 0 0 80
    (fun _ _ h => Option.noConfusion h) GETrunW reqW_lat reqW_lng reqW_r

/-- C1 (amended): the pipeline performs order-preserving filtering and
truncation only — the returned sequence preserves the relative order of the
upstream result rows; no sort by distance is performed (and the output is
not, in general, sorted by distance: see the counterexample). -/
theorem claim_C1_amended {α : Type} [LinearOrder α]
    (dist : ℚ → ℚ → ℚ → ℚ → α) (clat clng : ℚ) (radius : α)
    (items : List (WItem α)) :
    ((filterByRadius dist clat clng radius items).map clearDist).Sublist
      (items.map clearDist) :=
  filterByRadius_sublist dist clat clng radius items

/-- C3 (amended): a row whose final coordinate strings (after the `'0'`
defaulting and `Point(...)` recovery) fail numeric parsing is dropped by the
tier filter before any distance comparison, and consequently no such row
survives into a tier's filtered output.  (The original claim fails for rows
with *absent* coordinate fields and no recoverable location: those are
defaulted to the string `0` and proceed as latitude 0 / longitude 0 — see
the counterexample.) -/
theorem claim_C3_amended {α : Type} [LinearOrder α]
    (dist : ℚ → ℚ → ℚ → ℚ → α) (clat clng : ℚ) (radius : α) :
    (∀ it : WItem α, parseFloatQ it.lat = none ∨ parseFloatQ it.lng = none →
      tierStep dist clat clng radius it = none) ∧
      ∀ (items : List (WItem α)) (it' : WItem α),
        it' ∈ filterByRadius dist clat clng radius items →
        parseFloatQ it'.lat ≠ none ∧ parseFloatQ it'.lng ≠ none := by
  constructor
  · intro it h
    rcases h with h | h
    · cases hln : parseFloatQ it.lng <;> simp [tierStep, h, hln]
    · cases hla : parseFloatQ it.lat <;> simp [tierStep, h, hla]
  · intro items it' hmem
    obtain ⟨la, ln, hla, hln, -⟩ := mem_filterByRadius hmem
    exact ⟨by rw [hla]; exact Option.some_ne_none la,
      by rw [hln]; exact Option.some_ne_none ln⟩

def itBad : WItem ℚ :=
  ⟨"", "Unknown", none, "Unknown date", "abc", "1.0", none, none, none⟩

/-- Witness for C3 (amended): a row with a non-numeric latitude string is
dropped by the tier filter. -/
theorem claim_C3_amended_witness :
    tierStep distQ0 0 0 (q2aQ 80) itBad = none :=
  (claim_C3_amended distQ0 0 0 (q2aQ 80)).1 itBad (Or.inl (by decide))

/-- C6 (amended): when the primary tier yields zero surviving records (on a
cache miss with a well-formed primary response), the fallback tier is
invoked exactly once and its filtered output (even if empty) is returned to
the caller; however the cache entry stored for the request key is the
primary tier's empty result, not the fallback output. -/
theorem claim_C6_amended {α : Type} [LinearOrder α]
    {dist : ℚ → ℚ → ℚ → ℚ → α} {q2a : ℚ → α} {cy : ℤ} {req : ReqParams}
    {up : Upstream} {cache : Cache α} {lat lng radius : ℚ} {sy ey : ℤ}
    {bs : List Binding}
    (hlat : parseFloatQ (jsOrS req.lat "0") = some lat)
    (hlng : parseFloatQ (jsOrS req.lng "0") = some lng)
    (hr : parseFloatQ (jsOrS req.r "8.0467") = some radius)
    (hsy : parseIntJS (jsOrS req.startYear "1500") = some sy)
    (hey : parseIntJS (jsOrS req.endYear (toString cy)) = some ey)
    (hv1 : sy ≤ ey) (hv2 : ey ≤ cy) (hv3 : 1 ≤ radius) (hv4 : radius ≤ 500)
    (hmiss : cache (lat, lng, radius, sy, ey) = none)
    (hok : up.primary.ok = true)
    (hbind : up.primary.bindings = some bs)
    (hP : filterByRadius dist lat lng (q2a radius) (bs.map toItemMain) = []) :
    GET dist q2a cy req up cache =
      (.ok (if req.coordinates = some "true" then
          convertToGeoJSON
            (queryWikidataFallback dist lat lng (q2a radius) up.fallback)
            lat lng
        else
          convertToFullGeoJSON dist
            (queryWikidataFallback dist lat lng (q2a radius) up.fallback)
            lat lng (q2a radius)),
        cacheInsert cache (lat, lng, radius, sy, ey) [],
        ⟨1, 1, 1, some (lat, lng, radius, sy, ey)⟩) := by
  rw [GET_run hlat hlng hr hsy hey hv1 hv2 hv3 hv4 hmiss hok hbind, hP]
  simp

/-- Witness for C6 (amended) on a concrete run. -/
theorem claim_C6_amended_witness :
    GET distQ0 q2aQ 2024 reqW upW (emptyCache ℚ) =
      (.ok (if reqW.coordinates = some "true" then
          convertToGeoJSON
            (queryWikidataFallback distQ0 0 0 (q2aQ 80) upW.fallback) 0 0
        else
          convertToFullGeoJSON distQ0
            (queryWikidataFallback distQ0 0 0 (q2aQ 80) upW.fallback)
            0 0 (q2aQ 80)),
        cacheInsert (emptyCache ℚ) (0, 0, 80, 1500, 2024) [],
        ⟨1, 1, 1, some (0, 0, 80, 1500, 2024)⟩) :=
  claim_C6_amended reqW_lat reqW_lng reqW_r reqW_sy reqW_ey (by norm_num)
    (by norm_num) (by norm_num) (by norm_num) rfl rfl rfl
    (by simp [filterByRadius])

/-- C9 (amended): a malformed fallback-tier response — non-OK HTTP status or
a body lacking the `results.bindings` table — is absorbed, not surfaced:
when the primary tier yields zero records, the request still succeeds with
an empty FeatureCollection. -/
theorem claim_C9_amended {α : Type} [LinearOrder α]
    {dist : ℚ → ℚ → ℚ → ℚ → α} {q2a : ℚ → α} {cy : ℤ} {req : ReqParams}
    {up : Upstream} {cache : Cache α} {lat lng radius : ℚ} {sy ey : ℤ}
    {bs : List Binding}
    (hlat : parseFloatQ (jsOrS req.lat "0") = some lat)
    (hlng : parseFloatQ (jsOrS req.lng "0") = some lng)
    (hr : parseFloatQ (jsOrS req.r "8.0467") = some radius)
    (hsy : parseIntJS (jsOrS req.startYear "1500") = some sy)
    (hey : parseIntJS (jsOrS req.endYear (toString cy)) = some ey)
    (hv1 : sy ≤ ey) (hv2 : ey ≤ cy) (hv3 : 1 ≤ radius) (hv4 : radius ≤ 500)
    (hmiss : cache (lat, lng, radius, sy, ey) = none)
    (hok : up.primary.ok = true)
    (hbind : up.primary.bindings = some bs)
    (hP : filterByRadius dist lat lng (q2a radius) (bs.map toItemMain) = [])
    (hfb : up.fallback.ok = false ∨ up.fallback.bindings = none) :
    GET dist q2a cy req up cache =
      (.ok ⟨[]⟩, cacheInsert cache (lat, lng, radius, sy, ey) [],
        ⟨1, 1, 1, some (lat, lng, radius, sy, ey)⟩) := by
  have hfbe : queryWikidataFallback dist lat lng (q2a radius) up.fallback
      = [] := by
    unfold queryWikidataFallback
    rcases hfb with h | h
    · rw [h]; simp
    · rw [h]; simp
  rw [GET_run hlat hlng hr hsy hey hv1 hv2 hv3 hv4 hmiss hok hbind, hP,
    hfbe]
  by_cases hco : req.coordinates = some "true"
  · simp [hco, convertToGeoJSON]
  · simp [hco, convertToFullGeoJSON]

def upC9 : Upstream :=
  { primary := { ok := true, status := 200, bindings := some [] },
    fallback := { ok := false, status := 500, bindings := none } }

/-- Witness for C9 (amended) on a concrete run whose fallback response has a
non-OK status. -/
theorem claim_C9_amended_witness :
    GET distQ0 q2aQ 2024 reqW upC9 (emptyCache ℚ) =
      (.ok ⟨[]⟩, cacheInsert (emptyCache ℚ) (0, 0, 80, 1500, 2024) [],
        ⟨1, 1, 1, some (0, 0, 80, 1500, 2024)⟩) :=
  claim_C9_amended reqW_lat reqW_lng reqW_r reqW_sy reqW_ey (by norm_num)
    (by norm_num) (by norm_num) (by norm_num) rfl rfl rfl
    (by simp [filterByRadius]) (Or.inl rfl)

/-- C7: a request with a non-numeric `lat`, `lng`, `r`, `startYear` or
`endYear` parameter, or a radius outside `[1, 500]`, or
`startYear > endYear`, or `endYear` beyond the current year, receives an
HTTP 400 validation error and issues no upstream call at all: neither the
connectivity test nor any tier query runs, and the cache is untouched. -/
theorem claim_C7 {α : Type} [LinearOrder α] (dist : ℚ → ℚ → ℚ → ℚ → α)
    (q2a : ℚ → α) (cy : ℤ) (req : ReqParams) (up : Upstream)
    (cache : Cache α)
    (hbad :
      parseFloatQ (jsOrS req.lat "0") = none ∨
      parseFloatQ (jsOrS req.lng "0") = none ∨
      parseFloatQ (jsOrS req.r "8.0467") = none ∨
      parseIntJS (jsOrS req.startYear "1500") = none ∨
      parseIntJS (jsOrS req.endYear (toString cy)) = none ∨
      (∃ radius, parseFloatQ (jsOrS req.r "8.0467") = some radius ∧
        (radius < 1 ∨ radius > 500)) ∨
      (∃ sy ey, parseIntJS (jsOrS req.startYear "1500") = some sy ∧
        parseIntJS (jsOrS req.endYear (toString cy)) = some ey ∧ sy > ey) ∨
      (∃ ey, parseIntJS (jsOrS req.endYear (toString cy)) = some ey ∧
        ey > cy)) :
    ∃ msg, GET dist q2a cy req up cache = (.err 400 msg, cache, noTrace) := by
  unfold GET
  cases hlat : parseFloatQ (jsOrS req.lat "0") with
  | none =>
    refine ⟨"Invalid parameters. lat, lng, and r must be valid numbers.", ?_⟩
    simp only [hlat]
  | some lat =>
  cases hlng : parseFloatQ (jsOrS req.lng "0") with
  | none =>
    refine ⟨"Invalid parameters. lat, lng, and r must be valid numbers.", ?_⟩
    simp only [hlat, hlng]
  | some lng =>
  cases hrr : parseFloatQ (jsOrS req.r "8.0467") with
  | none =>
    refine ⟨"Invalid parameters. lat, lng, and r must be valid numbers.", ?_⟩
    simp only [hlat, hlng, hrr]
  | some radius =>
  cases hsy : parseIntJS (jsOrS req.startYear "1500") with
  | none =>
    refine
      ⟨"Invalid year parameters. startYear and endYear must be valid numbers.",
        ?_⟩
    simp only [hlat, hlng, hrr, hsy]
  | some sy =>
  cases hey : parseIntJS (jsOrS req.endYear (toString cy)) with
  | none =>
    refine
      ⟨"Invalid year parameters. startYear and endYear must be valid numbers.",
        ?_⟩
    simp only [hlat, hlng, hrr, hsy, hey]
  | some ey =>
  by_cases h1 : sy > ey
  · refine ⟨"startYear must be less than or equal to endYear.", ?_⟩
    simp only [hlat, hlng, hrr, hsy, hey]
    rw [if_pos h1]
  · by_cases h2 : ey > cy
    · refine ⟨"endYear cannot be in the future.", ?_⟩
      simp only [hlat, hlng, hrr, hsy, hey]
      rw [if_neg h1, if_pos h2]
    · by_cases h3 : radius < 1
      · refine ⟨"Radius too small. Minimum allowed is 1km.", ?_⟩
        simp only [hlat, hlng, hrr, hsy, hey]
        rw [if_neg h1, if_neg h2, if_pos h3]
      · by_cases h4 : radius > 500
        · refine ⟨"Radius too large. Maximum allowed is 500km (311 miles).",
            ?_⟩
          simp only [hlat, hlng, hrr, hsy, hey]
          rw [if_neg h1, if_neg h2, if_neg h3, if_pos h4]
        · exfalso
          rcases hbad with h | h | h | h | h | ⟨r', hr', hc⟩ |
              ⟨sy', ey', hsy', hey', hgt⟩ | ⟨ey', hey', hgt⟩
          · rw [hlat] at h; exact Option.noConfusion h
          · rw [hlng] at h; exact Option.noConfusion h
          · rw [hrr] at h; exact Option.noConfusion h
          · rw [hsy] at h; exact Option.noConfusion h
          · rw [hey] at h; exact Option.noConfusion h
          · rw [hrr] at hr'
            rcases hc with hc | hc
            · exact h3 (Option.some_inj.mp hr' ▸ hc)
            · exact h4 (Option.some_inj.mp hr' ▸ hc)
          · rw [hsy] at hsy'; rw [hey] at hey'
            exact h1 (Option.some_inj.mp hsy' ▸ Option.some_inj.mp hey' ▸ hgt)
          · rw [hey] at hey'
            exact h2 (Option.some_inj.mp hey' ▸ hgt)

def req7 : ReqParams :=
  { lat := some "0", lng := some "0", r := some "0.5",
    startYear := some "1500", endYear := some "2024" }

/-- Witness for C7 at the spec's concrete scenario `radius = 0.5` (below
the minimum): a 400 validation error with no upstream call. -/
theorem claim_C7_witness :
    ∃ msg, GET distQ0 q2aQ 2024 req7 upW (emptyCache ℚ) =
      (.err 400 msg, emptyCache ℚ, noTrace) := by
  apply claim_C7
  refine Or.inr (Or.inr (Or.inr (Or.inr (Or.inr (Or.inl
    ⟨1/2, ?_, Or.inl (by norm_num)⟩)))))
  rw [show jsOrS req7.r "8.0467" = "0.5" from by decide]
  exact pfQ_05

/-- C10: if the `lat` or the `lng` query parameter is entirely absent, the
handler substitutes the string `0` for it, which passes numeric validation,
and the search proceeds centred at coordinate 0 on that axis: the
connectivity test runs, the query stage is reached with 0 on the absent
axis (and the parsed value on the present one), and no 400 response is
produced. -/
theorem claim_C10 {α : Type} [LinearOrder α] (dist : ℚ → ℚ → ℚ → ℚ → α)
    (q2a : ℚ → α) (cy : ℤ) (req : ReqParams) (up : Upstream)
    (cache : Cache α) (radius : ℚ) (sy ey : ℤ)
    (hr : parseFloatQ (jsOrS req.r "8.0467") = some radius)
    (hsy : parseIntJS (jsOrS req.startYear "1500") = some sy)
    (hey : parseIntJS (jsOrS req.endYear (toString cy)) = some ey)
    (hv1 : sy ≤ ey) (hv2 : ey ≤ cy) (hv3 : 1 ≤ radius) (hv4 : radius ≤ 500) :
    (∀ lng : ℚ, req.lat = none →
      parseFloatQ (jsOrS req.lng "0") = some lng →
      ∃ resp cache' n fbn, GET dist q2a cy req up cache =
        (resp, cache', ⟨1, n, fbn, some (0, lng, radius, sy, ey)⟩) ∧
        ∀ m, resp ≠ .err 400 m) ∧
    ∀ lat : ℚ, req.lng = none →
      parseFloatQ (jsOrS req.lat "0") = some lat →
      ∃ resp cache' n fbn, GET dist q2a cy req up cache =
        (resp, cache', ⟨1, n, fbn, some (lat, 0, radius, sy, ey)⟩) ∧
        ∀ m, resp ≠ .err 400 m := by
  constructor
  · intro lng habs hlng
    have hlat : parseFloatQ (jsOrS req.lat "0") = some 0 := by
      rw [habs, show jsOrS none "0" = "0" from rfl]
      exact pfQ_zero
    exact GET_reaches hlat hlng hr hsy hey hv1 hv2 hv3 hv4
  · intro lat habs hlat
    have hlng : parseFloatQ (jsOrS req.lng "0") = some 0 := by
      rw [habs, show jsOrS none "0" = "0" from rfl]
      exact pfQ_zero
    exact GET_reaches hlat hlng hr hsy hey hv1 hv2 hv3 hv4

def req10 : ReqParams :=
  { lng := some "0", r := some "80",
    startYear := some "1500", endYear := some "2024" }

def req10b : ReqParams :=
  { lat := some "0.2", r := some "80",
    startYear := some "1500", endYear := some "2024" }

/-- Witness for C10 on both axes: a request with no `lat` parameter
proceeds centred at latitude 0, and a request with latitude 0.2° and no
`lng` parameter proceeds centred at longitude 0; neither is rejected. -/
theorem claim_C10_witness :
    (∃ resp cache' n fbn, GET distQ0 q2aQ 2024 req10 upW (emptyCache ℚ) =
      (resp, cache', ⟨1, n, fbn, some (0, 0, 80, 1500, 2024)⟩) ∧
      ∀ m, resp ≠ .err 400 m) ∧
    ∃ resp cache' n fbn, GET distQ0 q2aQ 2024 req10b upW (emptyCache ℚ) =
      (resp, cache', ⟨1, n, fbn, some (1/5, 0, 80, 1500, 2024)⟩) ∧
      ∀ m, resp ≠ .err 400 m := by
  constructor
  · refine (claim_C10 distQ0 q2aQ 2024 req10 upW (emptyCache ℚ) 80 1500 2024
      ?_ ?_ ?_ ?_ ?_ ?_ ?_).1 0 rfl ?_
    · rw [show jsOrS req10.r "8.0467" = "80" from by decide]
      exact pfQ_80
    · rw [show jsOrS req10.startYear "1500" = "1500" from by decide]
      exact piJS_1500
    · rw [show jsOrS req10.endYear (toString (2024 : ℤ)) = "2024" from
        by decide]
      exact piJS_2024
    · norm_num
    · norm_num
    · norm_num
    · norm_num
    · rw [show jsOrS req10.lng "0" = "0" from by decide]
      exact pfQ_zero
  · refine (claim_C10 distQ0 q2aQ 2024 req10b upW (emptyCache ℚ) 80 1500
      2024 ?_ ?_ ?_ ?_ ?_ ?_ ?_).2 (1/5) rfl ?_
    · rw [show jsOrS req10b.r "8.0467" = "80" from by decide]
      exact pfQ_80
    · rw [show jsOrS req10b.startYear "1500" = "1500" from by decide]
      exact piJS_1500
    · rw [show jsOrS req10b.endYear (toString (2024 : ℤ)) = "2024" from
        by decide]
      exact piJS_2024
    · norm_num
    · norm_num
    · norm_num
    · norm_num
    · rw [show jsOrS req10b.lat "0" = "0.2" from by decide]
      exact pfQ_02

/-- C4 (amended): the latitude half of the containment always holds — for
any centre and any point with latitudes in `[-90, 90]` and any radius in
`[1, 500]`, a haversine distance at most the radius forces the point's
latitude into `[minLat, maxLat]` of the computed bounding box.  (The
longitude half of the claimed containment is false even far from the poles:
longitudes wrap at the antimeridian — see the counterexample.) -/
theorem claim_C4_amended (lat1 lng1 lat2 lng2 r : ℝ)
    (h1 : |lat1| ≤ 90) (h2 : |lat2| ≤ 90) (hr1 : 1 ≤ r) (hr5 : r ≤ 500)
    (hd : calculateDistance lat1 lng1 lat2 lng2 ≤ r) :
    (boundingBox lat1 lng1 r).minLat ≤ lat2 ∧
      lat2 ≤ (boundingBox lat1 lng1 r).maxLat := by
  have h := latDiff_le_of_dist_le h1 h2 (by linarith) hr5 hd
  rw [abs_le] at h
  obtain ⟨hl, hu⟩ := h
  unfold boundingBox
  dsimp only
  norm_num at hl hu ⊢
  constructor <;> linarith

/-- Witness for C4 (amended) at centre (0,0), radius 1, point (0,0). -/
theorem claim_C4_amended_witness :
    (boundingBox 0 0 1).minLat ≤ 0 ∧ (0:ℝ) ≤ (boundingBox 0 0 1).maxLat :=
  claim_C4_amended 0 0 0 0 1 (by norm_num) (by norm_num) (by norm_num)
    (by norm_num) (by rw [calculateDistance_self]; norm_num)

/-- C4 counterexample: centre (0, 179.9) — on the equator, far from the
poles — with radius 100 km (within [1, 500]), and the point P = (0, −179.8).
P lies 6371·π/600 ≈ 33.4 km from the centre by the haversine formula, yet
its longitude −179.8 is below `minLng` ≈ 178.9: the bounding box does not
contain the circle across the antimeridian, refuting the claimed
circle-containment property. -/
theorem claim_C4_cex :
    (1:ℝ) ≤ 100 ∧ (100:ℝ) ≤ 500 ∧
      calculateDistance 0 179.9 0 (-179.8) ≤ 100 ∧
      ¬ ((boundingBox 0 179.9 100).minLng ≤ -179.8 ∧
          (-179.8:ℝ) ≤ (boundingBox 0 179.9 100).maxLng) := by
  refine ⟨by norm_num, by norm_num, ?_, ?_⟩
  · have hd : calculateDistance 0 179.9 0 (-179.8) =
        6371 * ((-179.8 - 179.9 + 360) * π / 180) :=
      calculateDistance_equator_wrap (by norm_num) (by norm_num)
    rw [hd]
    have hpi := Real.pi_le_four
    have hp0 := Real.pi_pos
    norm_num
    linarith
  · rintro ⟨hc, -⟩
    unfold boundingBox at hc
    dsimp only at hc
    rw [abs_zero, show (0:ℝ) * π / 180 = 0 from by ring, Real.cos_zero]
      at hc
    norm_num at hc

/-! ## Concrete runs with the idealised haversine -/

theorem distR00 : distR 0 0 0 0 = 0 := by
  unfold distR
  simp only [Rat.cast_zero]
  exact calculateDistance_self 0 0

theorem q2aR80 : q2aR 80 = (80 : ℝ) := by norm_num [q2aR]

/-- The item produced from a binding whose coordinate fields are all
absent: both coordinate strings defaulted to `0`. -/
def itemZ : WItem ℝ :=
  ⟨"", "Unknown", none, "Unknown date", "0", "0", none, none, none⟩

/-- `itemZ` with its computed distance (0) attached by the filter. -/
def itemZd : WItem ℝ :=
  ⟨"", "Unknown", none, "Unknown date", "0", "0", some 0, none, none⟩

def featZ : Feature ℝ :=
  ⟨0, 0, some ⟨"", "Unknown", none, "Unknown date", 0, none, none⟩⟩

theorem toItemMain_empty : (toItemMain {} : WItem ℝ) = itemZ := rfl

theorem tierStep_itemZ :
    tierStep distR 0 0 (q2aR 80) itemZ = some itemZd := by
  have hc : distR 0 0 0 0 ≤ q2aR 80 := by rw [distR00, q2aR80]; norm_num
  simp only [tierStep, itemZ, pfQ_zero]
  rw [if_pos hc, distR00]
  rfl

theorem convert_itemZ :
    convertToFullGeoJSON distR [itemZd] 0 0 (q2aR 80) = ⟨[featZ]⟩ := by
  have hc : ¬ q2aR 80 < distR 0 0 0 0 := by
    rw [distR00, q2aR80]; norm_num
  unfold convertToFullGeoJSON
  simp only [List.filterMap_cons, List.filterMap_nil, itemZd, pfQ_zero]
  rw [if_neg hc, distR00]
  rfl

def upC3 : Upstream :=
  { primary := { ok := true, status := 200, bindings := some [{}] },
    fallback := { ok := true, status := 200, bindings := some [] } }

/-- C3 counterexample: a valid request centred at (0, 0) with radius 80,
whose primary upstream response contains one row with **no** coordinate
fields and no location string.  The row is defaulted to the strings
`"0"/"0"`, survives the distance filter (distance 0 from the centre), and
appears in the full-mode output as a feature at latitude 0 / longitude 0 —
refuting the claim that such rows never appear in output and are never
defaulted to (0, 0). -/
theorem claim_C3_cex :
    (GET distR q2aR 2024 reqW upC3 (emptyCache ℝ)).1 = .ok ⟨[featZ]⟩ ∧
      ({} : Binding).lat = none ∧ ({} : Binding).lng = none ∧
      ({} : Binding).location = none := by
  refine ⟨?_, rfl, rfl, rfl⟩
  rw [GET_run reqW_lat reqW_lng reqW_r reqW_sy reqW_ey (by norm_num)
    (by norm_num) (by norm_num) (by norm_num) rfl rfl rfl]
  have hP : filterByRadius distR 0 0 (q2aR 80)
      (([{}] : List Binding).map toItemMain) = [itemZd] := by
    unfold filterByRadius
    simp only [List.map_cons, List.map_nil, List.filterMap_cons,
      List.filterMap_nil, toItemMain_empty, tierStep_itemZ]
    rfl
  rw [hP]
  rw [if_neg (show ¬ ([itemZd].length = 0) from by simp)]
  rw [if_neg (show ¬ reqW.coordinates = some "true" from by simp [reqW])]
  rw [convert_itemZ]

def bC6 : Binding := { lat := some "0", lng := some "0" }

def upC6 : Upstream :=
  { primary := { ok := true, status := 200, bindings := some [] },
    fallback := { ok := true, status := 200, bindings := some [bC6] } }

theorem toItemFallback_bC6 : (toItemFallback bC6 : WItem ℝ) = itemZ := rfl

theorem fallback_upC6 :
    queryWikidataFallback distR 0 0 (q2aR 80) upC6.fallback = [itemZd] := by
  unfold queryWikidataFallback
  simp only [upC6]
  norm_num
  unfold filterByRadius
  simp only [List.map_cons, List.map_nil, List.filterMap_cons,
    List.filterMap_nil, toItemFallback_bC6, tierStep_itemZ]
  rfl

/-- C6 counterexample: a valid request whose primary tier yields zero rows
and whose fallback tier yields one surviving record.  The fallback output
(one feature) is returned to the caller, but the cache entry stored for the
request key is the primary tier's empty list — the fallback tier's filtered
output is *not* stored in the cache, refuting that part of the claim. -/
theorem claim_C6_cex :
    (GET distR q2aR 2024 reqW upC6 (emptyCache ℝ)).1 = .ok ⟨[featZ]⟩ ∧
      (GET distR q2aR 2024 reqW upC6 (emptyCache ℝ)).2.1
        (0, 0, 80, 1500, 2024) = some [] ∧
      queryWikidataFallback distR 0 0 (q2aR 80) upC6.fallback ≠ [] := by
  have hP : filterByRadius distR 0 0 (q2aR 80)
      (([] : List Binding).map toItemMain) = [] := by
    simp [filterByRadius]
  have hrun := @GET_run ℝ _ distR q2aR 2024 reqW upC6 (emptyCache ℝ)
    0 0 80 1500 2024 [] reqW_lat reqW_lng reqW_r reqW_sy reqW_ey
    (by norm_num) (by norm_num) (by norm_num) (by norm_num) rfl rfl rfl
  refine ⟨?_, ?_, ?_⟩
  · rw [hrun, hP]
    rw [if_pos (show ([] : List (WItem ℝ)).length = 0 from rfl)]
    rw [if_neg (show ¬ reqW.coordinates = some "true" from by simp [reqW])]
    rw [fallback_upC6, convert_itemZ]
  · rw [hrun, hP]
    simp [cacheInsert]
  · rw [fallback_upC6]
    simp

/-- C9 counterexample: a valid request whose primary tier yields zero rows
and whose fallback upstream response has a non-OK HTTP status (500).  The
handler returns a successful empty FeatureCollection (HTTP 200), not a
request-level error — the malformed final-tier response is absorbed, not
surfaced, refuting the claim. -/
theorem claim_C9_cex :
    (GET distR q2aR 2024 reqW upC9 (emptyCache ℝ)).1 =
      .ok (⟨[]⟩ : FeatureCollection ℝ) ∧ upC9.fallback.ok = false := by
  refine ⟨?_, rfl⟩
  rw [GET_run reqW_lat reqW_lng reqW_r reqW_sy reqW_ey (by norm_num)
    (by norm_num) (by norm_num) (by norm_num) rfl rfl rfl]
  have hP : filterByRadius distR 0 0 (q2aR 80)
      (([] : List Binding).map toItemMain) = [] := by
    simp [filterByRadius]
  rw [hP]
  rw [if_pos (show ([] : List (WItem ℝ)).length = 0 from rfl)]
  rw [if_neg (show ¬ reqW.coordinates = some "true" from by simp [reqW])]
  have hfb : queryWikidataFallback distR 0 0 (q2aR 80) upC9.fallback = [] := by
    simp [queryWikidataFallback, upC9]
  rw [hfb]
  rfl

def bC1a : Binding := { lat := some "0", lng := some "0.2" }

def bC1b : Binding := { lat := some "0", lng := some "0.1" }

def upC1 : Upstream :=
  { primary := { ok := true, status := 200, bindings := some [bC1a, bC1b] },
    fallback := { ok := true, status := 200, bindings := some [] } }

def itemA : WItem ℝ :=
  ⟨"", "Unknown", none, "Unknown date", "0", "0.2", none, none, none⟩

def itemB : WItem ℝ :=
  ⟨"", "Unknown", none, "Unknown date", "0", "0.1", none, none, none⟩

noncomputable def itemAd : WItem ℝ :=
  ⟨"", "Unknown", none, "Unknown date", "0", "0.2",
    some (distR 0 0 0 (1/5)), none, none⟩

noncomputable def itemBd : WItem ℝ :=
  ⟨"", "Unknown", none, "Unknown date", "0", "0.1",
    some (distR 0 0 0 (1/10)), none, none⟩

theorem toItemMain_bC1a : (toItemMain bC1a : WItem ℝ) = itemA := rfl

theorem toItemMain_bC1b : (toItemMain bC1b : WItem ℝ) = itemB := rfl

theorem dA_eq : distR 0 0 0 (1/5) = 6371 * (((1:ℝ)/5 - 0) * π / 180) := by
  unfold distR
  push_cast
  exact calculateDistance_equator (by norm_num) (by norm_num)

theorem dB_eq : distR 0 0 0 (1/10) = 6371 * (((1:ℝ)/10 - 0) * π / 180) := by
  unfold distR
  push_cast
  exact calculateDistance_equator (by norm_num) (by norm_num)

theorem dA_le : distR 0 0 0 (1/5) ≤ q2aR 80 := by
  rw [dA_eq, q2aR80]
  have h4 := Real.pi_le_four
  have h0 := Real.pi_pos
  norm_num
  linarith

theorem dB_le : distR 0 0 0 (1/10) ≤ q2aR 80 := by
  rw [dB_eq, q2aR80]
  have h4 := Real.pi_le_four
  have h0 := Real.pi_pos
  norm_num
  linarith

theorem dB_lt_dA : distR 0 0 0 (1/10) < distR 0 0 0 (1/5) := by
  rw [dA_eq, dB_eq]
  have h0 := Real.pi_pos
  norm_num
  nlinarith

theorem tierStep_itemA :
    tierStep distR 0 0 (q2aR 80) itemA = some itemAd := by
  simp only [tierStep, itemA, pfQ_zero, pfQ_02]
  rw [if_pos dA_le]
  rfl

theorem tierStep_itemB :
    tierStep distR 0 0 (q2aR 80) itemB = some itemBd := by
  simp only [tierStep, itemB, pfQ_zero, pfQ_01]
  rw [if_pos dB_le]
  rfl

theorem filter_C1 :
    filterByRadius distR 0 0 (q2aR 80) ([bC1a, bC1b].map toItemMain) =
      [itemAd, itemBd] := by
  unfold filterByRadius
  simp only [List.map_cons, List.map_nil, toItemMain_bC1a, toItemMain_bC1b,
    List.filterMap_cons, List.filterMap_nil, tierStep_itemA, tierStep_itemB]
  rfl

noncomputable def featA : Feature ℝ :=
  ⟨1/5, 0, some ⟨"", "Unknown", none, "Unknown date",
    distR 0 0 0 (1/5), none, none⟩⟩

noncomputable def featB : Feature ℝ :=
  ⟨1/10, 0, some ⟨"", "Unknown", none, "Unknown date",
    distR 0 0 0 (1/10), none, none⟩⟩

noncomputable def fcC1 : FeatureCollection ℝ := ⟨[featA, featB]⟩

theorem convert_C1 :
    convertToFullGeoJSON distR [itemAd, itemBd] 0 0 (q2aR 80) =
      ⟨[featA, featB]⟩ := by
  unfold convertToFullGeoJSON
  simp only [List.filterMap_cons, List.filterMap_nil, itemAd, itemBd,
    pfQ_zero, pfQ_02, pfQ_01]
  rw [if_neg (not_lt.mpr dA_le), if_neg (not_lt.mpr dB_le)]
  rfl

/-- C1 counterexample: a valid request (centre (0,0), radius 80, valid
years) whose primary upstream response lists a farther row (longitude 0.2°,
≈ 22.2 km away) before a nearer row (longitude 0.1°, ≈ 11.1 km away).  Both
survive the distance filter; the full-mode response preserves the upstream
order, so the feature distances are strictly decreasing — the returned
sequence is not sorted by non-decreasing distance, refuting the claim. -/
theorem claim_C1_cex :
    (GET distR q2aR 2024 reqW upC1 (emptyCache ℝ)).1 = .ok fcC1 ∧
      ¬ List.Sorted (· ≤ ·)
        (fcC1.features.filterMap fun f => f.props.map FullProps.distance) := by
  constructor
  · rw [GET_run reqW_lat reqW_lng reqW_r reqW_sy reqW_ey (by norm_num)
      (by norm_num) (by norm_num) (by norm_num) rfl rfl rfl]
    rw [filter_C1]
    rw [if_neg (show ¬ ([itemAd, itemBd].length = 0) from by simp)]
    rw [if_neg (show ¬ reqW.coordinates = some "true" from by simp [reqW])]
    rw [convert_C1]
    rfl
  · have hlist : fcC1.features.filterMap (fun f => f.props.map
        FullProps.distance) = [distR 0 0 0 (1/5), distR 0 0 0 (1/10)] := by
      simp [fcC1, featA, featB]
    rw [hlist]
    simp only [List.sorted_cons, List.mem_singleton, forall_eq,
      List.sorted_singleton, and_true, List.not_mem_nil, false_implies,
      implies_true]
    intro h
    exact absurd h.1 (not_le.mpr dB_lt_dA)

end PlacesHistory
